import Mathlib

/-!
Verification development for the hackney-gazette synthetic town/people/article
generators. The Python sources (src/utils/data/generate_town.py,
generate_people.py, generate_article.py) are shallowly embedded below:
Python ints are Int, Python floats are ℚ, the process-wide random module is an
abstract deterministic source RandOps threaded through every generator, the
Faker library is an abstract deterministic source FakerOps, uuid.uuid4 is an
entropy stream (Nat → String) not controlled by the random seed, and
datetime.now is an explicit clock input. Fallible Python code returns
Except String.
-/

/-- Python `needle in hay` substring test helper: does `hay` start with `needle`? -/
def strStartsAtList : List Char → List Char → Bool
  | [], _ => true
  | _ :: _, [] => false
  | c :: cs, d :: ds => c == d && strStartsAtList cs ds

/-- Model of the Python substring operator `needle in hay` on strings. -/
def strContains (needle hay : String) : Bool :=
  (List.range (hay.toList.length + 1)).any
    (fun i => strStartsAtList needle.toList (hay.toList.drop i))

/-- Model of Python `int(x)` on a float value: truncation toward zero. -/
def pyTrunc (q : ℚ) : Int := if 0 ≤ q then q.floor else - ((-q).floor)

/-- Model of Python `round(x, 2)`.  The generators only use it for cosmetic
two-decimal values (street length, park area, town area); the IEEE-754
banker-rounding details are abstracted to a fixed deterministic rounding. -/
def pyRound2 (q : ℚ) : ℚ := (((q * 100 + 1/2).floor : ℚ)) / 100

/-- Model of Python `list(range(a, b + 1))`, as used for the age list. -/
def rangeInt (a b : Int) : List Int :=
  (List.range (b + 1 - a).toNat).map (fun i => a + Int.ofNat i)

/-- First-match association-list lookup: model of Python dict indexing
(dicts keep insertion order and have unique keys). -/
def alookup (l : List (String × α)) (k : String) : Option α :=
  match l with
  | [] => none
  | (k0, v) :: rest => if k0 = k then some v else alookup rest k

/-- Model of Python `d.get(k, dflt)`. -/
def alookupD (l : List (String × α)) (k : String) (dflt : α) : α :=
  (alookup l k).getD dflt

/-- Abstract deterministic pseudo-random source standing for the seeded global
`random` module: `random.seed(seed)` fixes an initial state; each primitive
consumes state deterministically. -/
structure RandOps (σ : Type) where
  randint : Int → Int → σ → Int × σ
  randfloat : σ → ℚ × σ
  uniform : ℚ → ℚ → σ → ℚ × σ
  choiceIdx : Nat → σ → Nat × σ

/-- Well-formedness of a random source: `randint a b` lands in `[a, b]`,
`random()` lands in `[0, 1)`, `uniform a b` lands in `[a, b]`, and the index
drawn by `random.choice` over `n` items is below `n`. -/
def RandWF (R : RandOps σ) : Prop :=
  (∀ a b s, a ≤ b → a ≤ (R.randint a b s).1 ∧ (R.randint a b s).1 ≤ b) ∧
  (∀ s, 0 ≤ (R.randfloat s).1 ∧ (R.randfloat s).1 < 1) ∧
  (∀ a b s, a ≤ b → a ≤ (R.uniform a b s).1 ∧ (R.uniform a b s).1 ≤ b) ∧
  (∀ n s, 0 < n → (R.choiceIdx n s).1 < n)

/-- `itertools.accumulate` of a weight list starting from `acc`:
the running partial sums, as built inside CPython `random.choices`. -/
def accumFrom (acc : ℚ) : List ℚ → List ℚ
  | [] => []
  | w :: ws => (acc + w) :: accumFrom (acc + w) ws

/-- CPython `bisect.bisect_right(a, x, lo, hi)`:
while lo < hi: mid := (lo+hi)/2; if x < a[mid] then hi := mid else lo := mid+1. -/
def bisectRight (a : List ℚ) (x : ℚ) (lo hi : Nat) : Nat :=
  if h : lo < hi then
    let mid := (lo + hi) / 2
    if x < a.getD mid 0 then bisectRight a x lo mid
    else bisectRight a x (mid + 1) hi
  else lo
termination_by hi - lo
decreasing_by
  all_goals simp_wf
  all_goals omega

/-- Model of Python `random.choice(xs)` over the bare random state: draw an
index below `xs.length` and index into the list (empty list: IndexError). -/
def pyChoiceCore (R : RandOps σ) (xs : List α) (s : σ) : Except String (α × σ) :=
  let drawn := R.choiceIdx xs.length s
  match xs.get? drawn.1 with
  | some x => Except.ok (x, drawn.2)
  | none => Except.error ("IndexError: list index out of range")

/-- Model of CPython `random.choices(population, weights=ws, k=1)` restricted
to the drawn index, for a population of size `n`: accumulate the weights,
reject a length mismatch and a non-positive total (`ValueError`, the condition
the spec names InvalidWeightsError), then select
`bisect_right(cum, random() * total, 0, n - 1)`. -/
def pyChoices1 (R : RandOps σ) (n : Nat) (weights : List ℚ) (s : σ) :
    Except String (Nat × σ) :=
  let cum := accumFrom 0 weights
  if n ≠ weights.length then
    Except.error ("ValueError: The number of weights does not match the population")
  else
    match cum.getLast? with
    | none => Except.error ("IndexError: list index out of range")
    | some total =>
      if total ≤ 0 then
        Except.error ("ValueError: Total of weights must be greater than zero")
      else
        let drawn := R.randfloat s
        Except.ok (bisectRight cum (drawn.1 * total) 0 (n - 1), drawn.2)

theorem accumFrom_length (ws : List ℚ) : ∀ a, (accumFrom a ws).length = ws.length := by
  induction ws with
  | nil => intro a; rfl
  | cons w ws ih => intro a; simp [accumFrom, ih]

theorem accumFrom_getLast? (ws : List ℚ) (h : ws ≠ []) :
    ∀ a, (accumFrom a ws).getLast? = some (a + ws.sum) := by
  induction ws with
  | nil => exact absurd rfl h
  | cons w ws ih =>
    intro a
    cases hw : ws with
    | nil => simp [accumFrom, hw]
    | cons w2 ws2 =>
      have hne : ws ≠ [] := by simp [hw]
      have := ih hne (a + w)
      rw [hw] at this
      simp [accumFrom, hw] at this ⊢
      rw [this]
      congr 1
      ring

theorem bisectRight_le (a : List ℚ) (x : ℚ) :
    ∀ lo hi, lo ≤ hi → bisectRight a x lo hi ≤ hi := by
  intro lo hi
  induction lo, hi using bisectRight.induct a x with
  | case1 lo hi h mid hlt ih =>
    intro _
    rw [bisectRight, dif_pos h]
    simp only [if_pos hlt]
    exact le_trans (ih (by omega)) (by omega)
  | case2 lo hi h mid hlt ih =>
    intro _
    rw [bisectRight, dif_pos h]
    simp only [if_neg hlt]
    exact ih (by omega)
  | case3 lo hi h =>
    intro hle
    rw [bisectRight, dif_neg h]
    exact hle

theorem pyChoiceCore_mem (R : RandOps σ) (xs : List α) (s : σ) (x : α) (s' : σ)
    (h : pyChoiceCore R xs s = Except.ok (x, s')) : x ∈ xs := by
  unfold pyChoiceCore at h
  try dsimp only at h
  cases hg : xs.get? (R.choiceIdx xs.length s).1 with
  | none => rw [hg] at h; cases h
  | some y =>
    rw [hg] at h
    cases h
    exact List.get?_mem hg

theorem pyChoiceCore_ok (R : RandOps σ) (hWF : RandWF R) (xs : List α) (s : σ)
    (hne : xs ≠ []) :
    ∃ x, pyChoiceCore R xs s = Except.ok (x, (R.choiceIdx xs.length s).2) ∧ x ∈ xs := by
  have hlen : 0 < xs.length := List.length_pos.mpr hne
  have hidx : (R.choiceIdx xs.length s).1 < xs.length := hWF.2.2.2 xs.length s hlen
  refine ⟨xs.get ⟨(R.choiceIdx xs.length s).1, hidx⟩, ?_, List.get_mem _ _ _⟩
  unfold pyChoiceCore
  dsimp only
  rw [List.get?_eq_get hidx]

theorem pyChoices1_ok (R : RandOps σ) (n : Nat) (ws : List ℚ) (s : σ)
    (hlen : n = ws.length) (hn : 0 < n) (hsum : 0 < ws.sum) :
    ∃ i, pyChoices1 R n ws s = Except.ok (i, (R.randfloat s).2) ∧ i < n := by
  have hne : ws ≠ [] := by
    intro hc; rw [hc] at hlen; simp at hlen; omega
  unfold pyChoices1
  dsimp only
  rw [accumFrom_getLast? ws hne 0]
  simp only [if_neg (by omega : ¬ n ≠ ws.length)]
  rw [zero_add]
  simp only [if_neg (not_le.mpr hsum)]
  refine ⟨_, rfl, ?_⟩
  have := bisectRight_le (accumFrom 0 ws) ((R.randfloat s).1 * ws.sum) 0 (n - 1) (by omega)
  omega

/-- Abstract deterministic model of the Faker instance (`Faker.seed(seed)`
fixes its own stream, separate from the `random` module). `hasState`,
`hasCity`, `hasPostcode` model the `hasattr` probes on the locale provider. -/
structure FakerOps (φ : Type) where
  firstName : φ → String × φ
  firstNameMale : φ → String × φ
  firstNameFemale : φ → String × φ
  lastName : φ → String × φ
  fullName : φ → String × φ
  job : φ → String × φ
  city : φ → String × φ
  address : φ → String × φ
  phoneNumber : φ → String × φ
  email : φ → String × φ
  state : φ → String × φ
  postcode : φ → String × φ
  zipcode : φ → String × φ
  hasState : Bool
  hasCity : Bool
  hasPostcode : Bool

/-- The mutable world of one generator process: the global `random` module
state, the Faker stream state, and the position in the uuid4 entropy stream. -/
structure GState (σ φ : Type) where
  r : σ
  f : φ
  u : Nat
deriving DecidableEq

/-- Run a primitive of the global `random` module inside the world state. -/
def onR (g : σ → α × σ) (st : GState σ φ) : α × GState σ φ :=
  ((g st.r).1, { st with r := (g st.r).2 })

/-- Run a Faker primitive inside the world state. -/
def onF (g : φ → α × φ) (st : GState σ φ) : α × GState σ φ :=
  ((g st.f).1, { st with f := (g st.f).2 })

/-- Model of `str(uuid.uuid4())`: read the next value of the OS entropy
stream `ent` — uuid4 draws from `os.urandom`, NOT from the seeded PRNG. -/
def useUuid (ent : Nat → String) (st : GState σ φ) : String × GState σ φ :=
  (ent st.u, { st with u := st.u + 1 })

/-- `random.choice(xs)` inside the world state. -/
def pyChoice (R : RandOps σ) (xs : List α) (st : GState σ φ) :
    Except String (α × GState σ φ) :=
  match pyChoiceCore R xs st.r with
  | Except.ok vs => Except.ok (vs.1, { st with r := vs.2 })
  | Except.error e => Except.error e

/-- `random.choices(pop, weights=ws)[0]` inside the world state. -/
def pyChoicesPop (R : RandOps σ) (pop : List α) (ws : List ℚ) (st : GState σ φ) :
    Except String (α × GState σ φ) :=
  match pyChoices1 R pop.length ws st.r with
  | Except.error e => Except.error e
  | Except.ok is =>
    match pop.get? is.1 with
    | some x => Except.ok (x, { st with r := is.2 })
    | none => Except.error ("IndexError: list index out of range")

theorem pyChoice_mem (R : RandOps σ) (xs : List α) (st : GState σ φ) (x : α) (st' : GState σ φ)
    (h : pyChoice R xs st = Except.ok (x, st')) : x ∈ xs := by
  unfold pyChoice at h
  cases hc : pyChoiceCore R xs st.r with
  | error e => rw [hc] at h; cases h
  | ok vs =>
    rw [hc] at h
    cases h
    exact pyChoiceCore_mem R xs st.r vs.1 vs.2 (by rw [hc])

theorem pyChoice_ok (R : RandOps σ) (hWF : RandWF R) (xs : List α) (st : GState σ φ)
    (hne : xs ≠ []) :
    ∃ x, pyChoice R xs st = Except.ok (x, { st with r := (R.choiceIdx xs.length st.r).2 }) ∧
      x ∈ xs := by
  obtain ⟨x, hx, hmem⟩ := pyChoiceCore_ok R hWF xs st.r hne
  exact ⟨x, by unfold pyChoice; rw [hx], hmem⟩

theorem pyChoicesPop_mem (R : RandOps σ) (pop : List α) (ws : List ℚ)
    (st : GState σ φ) (x : α) (st' : GState σ φ)
    (h : pyChoicesPop R pop ws st = Except.ok (x, st')) : x ∈ pop := by
  unfold pyChoicesPop at h
  cases hc : pyChoices1 R pop.length ws st.r with
  | error e => rw [hc] at h; cases h
  | ok is =>
    rw [hc] at h
    try dsimp only at h
    cases hg : pop.get? is.1 with
    | none => rw [hg] at h; cases h
    | some y =>
      rw [hg] at h
      cases h
      exact List.get?_mem hg

theorem pyChoicesPop_ok (R : RandOps σ) (pop : List α) (ws : List ℚ)
    (st : GState σ φ) (hlen : ws.length = pop.length) (hne : pop ≠ [])
    (hsum : 0 < ws.sum) :
    ∃ x, pyChoicesPop R pop ws st =
        Except.ok (x, { st with r := (R.randfloat st.r).2 }) ∧ x ∈ pop := by
  obtain ⟨i, hi, hilt⟩ := pyChoices1_ok R pop.length ws st.r hlen.symm
    (List.length_pos.mpr hne) hsum
  refine ⟨pop.get ⟨i, hilt⟩, ?_, List.get_mem _ _ _⟩
  unfold pyChoicesPop
  rw [hi]
  dsimp only
  rw [List.get?_eq_get hilt]

/-- One entry of the temperament catalog (people_config `temperaments`). -/
structure Temperament where
  ttype : String
  description : String
  traits : List String
deriving DecidableEq

/-- The configuration of PeopleGenerator: values read from people_config.yaml
(with the code's `.get` defaults) plus generator init state (locale, street
names loaded from town_data.json). -/
structure PeopleConfig where
  locale : String
  minAge : Int
  maxAge : Int
  workingAgeStart : Int
  workingAgeEnd : Int
  retirementAge : Int
  minIncome : Int
  unemployedMaxIncome : Int
  retiredMinIncome : Int
  retiredMaxIncome : Int
  partTimeMinIncome : Int
  partTimeMaxIncome : Int
  peakEarningAgeStart : Int
  peakEarningAgeEnd : Int
  peakEarningMultiplier : ℚ
  normalEarningMultiplier : ℚ
  reducedEarningMultiplier : ℚ
  educationLevels : List String
  employmentStatus : List String
  maritalStatus : List String
  temperaments : List Temperament
  ageBasedAdjustments : List (String × List (String × ℚ))
  educationBasedAdjustments : List (String × List (String × ℚ))
  employmentBasedAdjustments : List (String × List (String × ℚ))
  countryMapping : List (String × String)
  streetNames : List String

/-- `PeopleGenerator.get_country_name`. -/
def getCountryName (cfg : PeopleConfig) : String :=
  alookupD cfg.countryMapping cfg.locale ((cfg.locale.splitOn ("_")).getLastD (""))

/-- `list(range(self.MIN_AGE, self.MAX_AGE + 1))` in `_generate_weighted_age`. -/
def ageList (cfg : PeopleConfig) : List Int := rangeInt cfg.minAge cfg.maxAge

/-- The age weight bands of `_generate_weighted_age`: 3 for working age,
2 for the near bands, 1 otherwise. -/
def ageWeights (cfg : PeopleConfig) : List ℚ :=
  (ageList cfg).map (fun age =>
    if cfg.workingAgeStart ≤ age ∧ age ≤ cfg.workingAgeEnd then 3
    else if (cfg.minAge ≤ age ∧ age ≤ 24) ∨ (66 ≤ age ∧ age ≤ 75) then 2
    else 1)

/-- `PeopleGenerator._generate_weighted_age`. -/
def generateWeightedAge (cfg : PeopleConfig) (R : RandOps σ) (st : GState σ φ) :
    Except String (Int × GState σ φ) :=
  pyChoicesPop R (ageList cfg) (ageWeights cfg) st

/-- `PeopleGenerator._generate_weighted_education`. -/
def generateWeightedEducation (cfg : PeopleConfig) (R : RandOps σ) (age : Int)
    (st : GState σ φ) : Except String (String × GState σ φ) :=
  if age < 25 then
    pyChoicesPop R (cfg.educationLevels.take 5) [15, 30, 25, 15, 15] st
  else if age < 40 then
    pyChoicesPop R cfg.educationLevels [5, 20, 15, 15, 25, 15, 3, 2] st
  else
    pyChoicesPop R cfg.educationLevels [10, 25, 20, 15, 20, 8, 1, 1] st

/-- `PeopleGenerator._generate_weighted_employment`. -/
def generateWeightedEmployment (cfg : PeopleConfig) (R : RandOps σ) (age : Int)
    (st : GState σ φ) : Except String (String × GState σ φ) :=
  if age < cfg.workingAgeStart then
    pyChoicesPop R cfg.employmentStatus [40, 30, 15, 0, 10, 3, 1, 1] st
  else if age < cfg.retirementAge then
    pyChoicesPop R cfg.employmentStatus [60, 15, 8, 2, 2, 5, 3, 5] st
  else
    pyChoicesPop R cfg.employmentStatus [10, 10, 2, 70, 0, 3, 3, 2] st

/-- `PeopleGenerator._generate_weighted_marital_status`. -/
def generateWeightedMaritalStatus (cfg : PeopleConfig) (R : RandOps σ) (age : Int)
    (st : GState σ φ) : Except String (String × GState σ φ) :=
  if age < 25 then pyChoicesPop R cfg.maritalStatus [70, 25, 2, 1, 1, 1] st
  else if age < 40 then pyChoicesPop R cfg.maritalStatus [35, 50, 8, 2, 3, 2] st
  else if age < 65 then pyChoicesPop R cfg.maritalStatus [20, 60, 12, 3, 3, 2] st
  else pyChoicesPop R cfg.maritalStatus [15, 50, 10, 20, 3, 2] st

/-- The hardcoded `education_income_map` of `_generate_income`. -/
def educationIncomeMap : List (String × ℚ) :=
  [(("Less than high school"), 25000),
   (("High school diploma/GED"), 35000),
   (("Some college, no degree"), 40000),
   (("Associate degree"), 45000),
   (("Bachelor\x27s degree"), 60000),
   (("Master\x27s degree"), 75000),
   (("Professional degree"), 100000),
   (("Doctoral degree"), 90000)]

/-- `PeopleGenerator._generate_income`: employment-status special cases first
(substring tests, in source order), else base income by education times an
age-band multiplier times `random.uniform(0.7, 1.5)`, truncated by `int()`
and floored at MIN_INCOME. -/
def generateIncome (cfg : PeopleConfig) (R : RandOps σ) (education employment : String)
    (age : Int) (st : GState σ φ) : Int × GState σ φ :=
  if strContains ("Unemployed") employment || strContains ("Student") employment then
    onR (R.randint cfg.minIncome cfg.unemployedMaxIncome) st
  else if strContains ("Retired") employment then
    onR (R.randint cfg.retiredMinIncome cfg.retiredMaxIncome) st
  else if strContains ("part-time") employment then
    onR (R.randint cfg.partTimeMinIncome cfg.partTimeMaxIncome) st
  else
    let baseIncome : ℚ := alookupD educationIncomeMap education 35000
    let ageMultiplier : ℚ :=
      if cfg.peakEarningAgeStart ≤ age ∧ age ≤ cfg.peakEarningAgeEnd then
        cfg.peakEarningMultiplier
      else if cfg.workingAgeStart ≤ age ∧ age ≤ cfg.workingAgeEnd then
        cfg.normalEarningMultiplier
      else cfg.reducedEarningMultiplier
    let draw := onR (R.uniform (7/10) (3/2)) st
    (max cfg.minIncome (pyTrunc (baseIncome * ageMultiplier * draw.1)), draw.2)

/-- `PeopleGenerator._generate_household_size`. -/
def generateHouseholdSize (R : RandOps σ) (age : Int) (st : GState σ φ) :
    Except String (Int × GState σ φ) :=
  if age < 30 then pyChoicesPop R [(1 : Int), 2, 3, 4] [40, 35, 20, 5] st
  else if age < 50 then pyChoicesPop R [(1 : Int), 2, 3, 4, 5] [20, 30, 30, 15, 5] st
  else pyChoicesPop R [(1 : Int), 2, 3] [30, 50, 20] st

/-- The age-range tag match chain inside `_get_age_weight_adjustment`
(the duplicate ">50" arm of the source chain is subsumed by the first). -/
def ageTagMatches (tag : String) (age : Int) : Bool :=
  (tag == "<30" && decide (age < 30)) ||
  (tag == ">60" && decide (age > 60)) ||
  (tag == ">50" && decide (age > 50)) ||
  (tag == "<25" && decide (age < 25)) ||
  (tag == "25-45" && decide (25 ≤ age ∧ age ≤ 45)) ||
  (tag == ">65" && decide (age > 65)) ||
  (tag == ">40" && decide (age > 40))

/-- The `for age_range, value in temp_adj.items()` loop: return the first
configured pair whose tag matches this age. -/
def findAgeAdjustment (pairs : List (String × ℚ)) (age : Int) : Option ℚ :=
  match pairs with
  | [] => none
  | (tag, v) :: rest => if ageTagMatches tag age then some v else findAgeAdjustment rest age

/-- The hardcoded fallback `adjustments` dict of `_get_age_weight_adjustment`. -/
def fallbackAgeAdjustment (ttype : String) (age : Int) : ℚ :=
  alookupD
    [(("Anxious"), if age < 30 then (1 : ℚ)/2 else if age > 60 then -(1/5) else 0),
     (("Calm"), if age > 50 then 3/10 else if age < 25 then -(1/10) else 0),
     (("Outgoing"), if 25 ≤ age ∧ age ≤ 45 then 3/10 else if age > 65 then -(1/5) else 0),
     (("Patient"), if age > 40 then 2/5 else if age < 25 then -(1/5) else 0),
     (("Impulsive"), if age < 30 then 2/5 else if age > 50 then -(3/10) else 0),
     (("Ambitious"), if 25 ≤ age ∧ age ≤ 45 then 2/5 else if age > 60 then -(1/5) else 0)]
    ttype 0

/-- `PeopleGenerator._get_age_weight_adjustment`: config lookup keyed by
temperament name, first matching symbolic age tag, then the config "default",
then the hardcoded fallback table. -/
def getAgeWeightAdjustment (cfg : PeopleConfig) (ttype : String) (age : Int) : ℚ :=
  match alookup cfg.ageBasedAdjustments ttype with
  | some tempAdj =>
    match findAgeAdjustment tempAdj age with
    | some v => v
    | none =>
      match alookup tempAdj ("default") with
      | some v => v
      | none => fallbackAgeAdjustment ttype age
  | none => fallbackAgeAdjustment ttype age

/-- `PeopleGenerator._get_education_weight_adjustment`: additive, config-driven
accumulation over the three education condition keys. (With a well-formed
config dict the source's `return adjustment` inside the `try` always runs, so
the hardcoded Analytical/Optimistic fallback below it is unreachable.) -/
def getEducationWeightAdjustment (cfg : PeopleConfig) (ttype education : String) : ℚ :=
  match alookup cfg.educationBasedAdjustments ttype with
  | none => 0
  | some m =>
    (if (alookup m ("has_degree")).isSome && strContains ("degree") education.toLower then
      alookupD m ("has_degree") 0 else 0) +
    (if (alookup m ("advanced_degree")).isSome &&
        (strContains ("Master\x27s") education || strContains ("Doctoral") education ||
         strContains ("Professional") education) then
      alookupD m ("advanced_degree") 0 else 0) +
    (if (alookup m ("bachelor_or_masters")).isSome &&
        (strContains ("Bachelor\x27s") education || strContains ("Master\x27s") education) then
      alookupD m ("bachelor_or_masters") 0 else 0)

/-- The hardcoded fallback `adjustments` dict of `_get_employment_weight_adjustment`. -/
def fallbackEmploymentAdjustment (ttype employment : String) : ℚ :=
  alookupD
    [(("Anxious"), if strContains ("Unemployed") employment then (1 : ℚ)/2
       else if strContains ("Student") employment then 1/5 else 0),
     (("Aggressive"), if strContains ("Manager") employment ||
         strContains ("Sales") employment || strContains ("Lawyer") employment
       then 1/5 else 0),
     (("Laid-back"), if strContains ("Retired") employment then 2/5 else 0),
     (("Pessimistic"), if strContains ("Unemployed") employment ||
         strContains ("Disabled") employment then 3/10 else 0)]
    ttype 0

/-- `PeopleGenerator._get_employment_weight_adjustment`: first matching
config-driven condition key wins; otherwise the hardcoded fallback table. -/
def getEmploymentWeightAdjustment (cfg : PeopleConfig) (ttype employment : String) : ℚ :=
  match alookup cfg.employmentBasedAdjustments ttype with
  | none => fallbackEmploymentAdjustment ttype employment
  | some m =>
    if (alookup m ("Unemployed")).isSome && strContains ("Unemployed") employment then
      alookupD m ("Unemployed") 0
    else if (alookup m ("Student")).isSome && strContains ("Student") employment then
      alookupD m ("Student") 0
    else if (alookup m ("management_sales_law")).isSome &&
        (strContains ("Manager") employment || strContains ("Sales") employment ||
         strContains ("Lawyer") employment) then
      alookupD m ("management_sales_law") 0
    else if (alookup m ("Retired")).isSome && strContains ("Retired") employment then
      alookupD m ("Retired") 0
    else if (alookup m ("unemployment_disability")).isSome &&
        (strContains ("Unemployed") employment || strContains ("Disabled") employment) then
      alookupD m ("unemployment_disability") 0
    else fallbackEmploymentAdjustment ttype employment

/-- `PeopleGenerator._calculate_temperament_weight`: base weight 1.0 plus the
age, education and employment adjustments. -/
def calculateTemperamentWeight (cfg : PeopleConfig) (t : Temperament) (age : Int)
    (education employment : String) : ℚ :=
  1 + getAgeWeightAdjustment cfg t.ttype age
    + getEducationWeightAdjustment cfg t.ttype education
    + getEmploymentWeightAdjustment cfg t.ttype employment

/-- The `temperament_weights` list built by `_generate_temperament`:
one `max(0.1, weight)` score per catalog temperament. -/
def temperamentWeights (cfg : PeopleConfig) (age : Int) (education employment : String) :
    List ℚ :=
  cfg.temperaments.map
    (fun t => max (1/10) (calculateTemperamentWeight cfg t age education employment))

/-- `PeopleGenerator._generate_temperament`: weighted draw of a catalog
temperament over the floored scores. -/
def generateTemperament (cfg : PeopleConfig) (R : RandOps σ) (age : Int)
    (education employment : String) (st : GState σ φ) :
    Except String (Temperament × GState σ φ) :=
  pyChoicesPop R cfg.temperaments (temperamentWeights cfg age education employment) st

/-- One generated person record: the dict returned by
`PeopleGenerator.generate_person` (numeric values pass through `str(...)`,
traits are joined with ", "). -/
structure Person where
  id : String
  firstName : String
  lastName : String
  age : String
  gender : String
  birthYear : String
  maritalStatus : String
  educationLevel : String
  employmentStatus : String
  occupation : String
  annualIncome : String
  householdSize : String
  location : String
  fullAddress : String
  phoneNumber : String
  email : String
  temperamentType : String
  temperamentDescription : String
  temperamentTraits : String
  country : String
  locale : String
deriving DecidableEq, Inhabited

/-- The `location` block of `generate_person`: `state` if the locale provider
has it, else `city`, else the first line of `address`. -/
def generateLocation (F : FakerOps φ) (st : GState σ φ) : String × GState σ φ :=
  if F.hasState then onF F.state st
  else if F.hasCity then onF F.city st
  else
    let draw := onF F.address st
    (((draw.1.splitOn ("\n")).headD ("")), draw.2)

/-- `PeopleGenerator._generate_address_with_town_streets`: when street names
were loaded from town_data.json, compose number + street + city + postcode;
otherwise fall back to Faker's address with newlines replaced. -/
def generateAddressWithTownStreets (cfg : PeopleConfig) (R : RandOps σ) (F : FakerOps φ)
    (st : GState σ φ) : Except String (String × GState σ φ) :=
  if cfg.streetNames.isEmpty then
    let draw := onF F.address st
    Except.ok ((draw.1.replace ("\n") (", ")), draw.2)
  else do
    let streetDraw ← pyChoice R cfg.streetNames st
    let houseDraw := onR (R.randint 1 999) streetDraw.2
    let cityDraw := onF F.city houseDraw.2
    let pcDraw := if F.hasPostcode then onF F.postcode cityDraw.2 else onF F.zipcode cityDraw.2
    Except.ok (toString houseDraw.1 ++ " " ++ streetDraw.1 ++ ", " ++ cityDraw.1 ++ ", " ++
      pcDraw.1, pcDraw.2)

/-- `PeopleGenerator.generate_person`, in the source's draw order. The person
id is the first 8 characters of a uuid4, i.e. of the OS entropy stream, not of
the seeded PRNG; `current_year` models `datetime.now().year`. -/
def generatePerson (cfg : PeopleConfig) (R : RandOps σ) (F : FakerOps φ)
    (ent : Nat → String) (currentYear : Int) (st : GState σ φ) :
    Except String (Person × GState σ φ) := do
  let g ← pyChoice R [("Male" : String), ("Female")] st
  let nameDraw := if g.1 = ("Male") then onF F.firstNameMale g.2 else onF F.firstNameFemale g.2
  let lastDraw := onF F.lastName nameDraw.2
  let a ← generateWeightedAge cfg R lastDraw.2
  let birthYear := currentYear - a.1
  let edu ← generateWeightedEducation cfg R a.1 a.2
  let emp ← generateWeightedEmployment cfg R a.1 edu.2
  let occDraw := if strContains ("Employed") emp.1 then onF F.job emp.2
    else ((("" : String), emp.2))
  let inc := generateIncome cfg R edu.1 emp.1 a.1 occDraw.2
  let hh ← generateHouseholdSize R a.1 inc.2
  let mar ← generateWeightedMaritalStatus cfg R a.1 hh.2
  let loc := generateLocation F mar.2
  let addr ← generateAddressWithTownStreets cfg R F loc.2
  let ph := onF F.phoneNumber addr.2
  let em := onF F.email ph.2
  let temp ← generateTemperament cfg R a.1 edu.1 emp.1 em.2
  let pid := useUuid ent temp.2
  Except.ok ({
    id := pid.1.take 8,
    firstName := nameDraw.1,
    lastName := lastDraw.1,
    age := toString a.1,
    gender := g.1,
    birthYear := toString birthYear,
    maritalStatus := mar.1,
    educationLevel := edu.1,
    employmentStatus := emp.1,
    occupation := occDraw.1,
    annualIncome := toString inc.1,
    householdSize := toString hh.1,
    location := loc.1,
    fullAddress := addr.1,
    phoneNumber := ph.1,
    email := em.1,
    temperamentType := temp.1.ttype,
    temperamentDescription := temp.1.description,
    temperamentTraits := String.intercalate (", ") temp.1.traits,
    country := getCountryName cfg,
    locale := cfg.locale }, pid.2)

/-- A Python value passed for `num_people`: an int, or anything failing the
`isinstance(num_people, int)` check. -/
inductive PyNum where
  | int (n : Int)
  | nonInt
deriving DecidableEq

/-- The list comprehension `[self.generate_person() for _ in range(n)]`. -/
def generatePersonList (cfg : PeopleConfig) (R : RandOps σ) (F : FakerOps φ)
    (ent : Nat → String) (currentYear : Int) :
    Nat → GState σ φ → Except String (List Person × GState σ φ)
  | 0, st => Except.ok ([], st)
  | Nat.succ k, st => do
    let p ← generatePerson cfg R F ent currentYear st
    let rest ← generatePersonList cfg R F ent currentYear k p.2
    Except.ok (p.1 :: rest.1, rest.2)

/-- `PeopleGenerator.generate_dataset`: validate `num_people` before any
generation, then generate exactly that many people. -/
def generateDataset (cfg : PeopleConfig) (R : RandOps σ) (F : FakerOps φ)
    (ent : Nat → String) (currentYear : Int) (numPeople : PyNum) (st : GState σ φ) :
    Except String (List Person × GState σ φ) :=
  match numPeople with
  | PyNum.nonInt => Except.error ("ValueError: num_people must be a positive integer")
  | PyNum.int n =>
    if n ≤ 0 then Except.error ("ValueError: num_people must be a positive integer")
    else generatePersonList cfg R F ent currentYear n.toNat st

/-- A size tier of town_config.yaml `town_sizes`: the `randint` ranges for
population and for each entity-count. -/
structure SizeConfig where
  populationRange : Int × Int
  streetCountRange : Int × Int
  businessCountRange : Int × Int
  landmarkCountRange : Int × Int
  parkCountRange : Int × Int
  schoolCountRange : Int × Int
  serviceCountRange : Int × Int

/-- The `name_components` section of town_config.yaml. -/
structure NameComponents where
  treeNames : List String
  streetPrefixes : List String
  directionalPrefixes : List String
  ordinalPrefixes : List String
  businessAdjDescriptive : List String
  businessAdjLocationBased : List String
  businessAdjSizeBased : List String
  businessAdjSpeedBased : List String
  businessNounsRestaurant : List String
  businessNounsRetail : List String
  businessNounsGas : List String
  parkPrefixes : List String
  historicalSignificanceLevels : List String
  facilityTypes : List String
  climateTypes : List String

/-- Configuration of TownGenerator: the town_config.yaml sections plus the
generator's locale. `businessTypes` is the weight dict (keys with weights). -/
structure TownConfig where
  locale : String
  townSizes : List (String × SizeConfig)
  streetPatterns : List (String × List String)
  businessTypes : List (String × ℚ)
  landmarkTypes : List String
  parkTypes : List String
  schoolTypes : List String
  serviceTypes : List String
  countryMapping : List (String × String)
  nameComponents : NameComponents

/-- A generated street record (field `type` of the source dict is `stype`). -/
structure Street where
  id : String
  name : String
  stype : String
  lengthKm : ℚ
deriving DecidableEq, Inhabited

/-- A generated business record. -/
structure Business where
  id : String
  name : String
  btype : String
  street : String
  employees : Int
  establishedYear : Int
deriving DecidableEq, Inhabited

/-- A generated landmark record. -/
structure Landmark where
  id : String
  name : String
  ltype : String
  street : String
  establishedYear : Int
  historicalSignificance : String
deriving DecidableEq, Inhabited

/-- A generated park record (no street reference in the source dict). -/
structure Park where
  id : String
  name : String
  ptype : String
  areaHectares : ℚ
  facilities : List String
deriving DecidableEq, Inhabited

/-- A generated school record. -/
structure School where
  id : String
  name : String
  schtype : String
  street : String
  students : Int
  establishedYear : Int
deriving DecidableEq, Inhabited

/-- A generated public service record. -/
structure Service where
  id : String
  name : String
  svtype : String
  street : String
  operatingHours : String
  staffCount : Int
deriving DecidableEq, Inhabited

/-- The complete town aggregate produced by `TownGenerator.generate_town`. -/
structure Town where
  id : String
  name : String
  country : String
  locale : String
  sizeCategory : String
  population : Int
  areaSqKm : ℚ
  foundedYear : Int
  elevationM : Int
  climate : String
  streets : List Street
  businesses : List Business
  landmarks : List Landmark
  parks : List Park
  schools : List School
  services : List Service
  generatedAt : String
deriving DecidableEq, Inhabited

/-- `TownGenerator._generate_street_name`: look the locale up in
street_patterns (a missing locale raises, because the `.get` default
expression indexes the dict eagerly), then `random.choice` one of six deferred
naming lambdas and run it. -/
def generateStreetName (cfg : TownConfig) (R : RandOps σ) (F : FakerOps φ)
    (st : GState σ φ) : Except String (String × GState σ φ) :=
  match alookup cfg.streetPatterns cfg.locale with
  | none => Except.error ("KeyError: " ++ cfg.locale)
  | some patterns =>
    let methods : List (GState σ φ → Except String (String × GState σ φ)) :=
      [fun s0 => do
        let ln := onF F.lastName s0
        let p ← pyChoice R patterns ln.2
        Except.ok (ln.1 ++ " " ++ p.1, p.2),
       fun s0 => do
        let fn := onF F.firstName s0
        let p ← pyChoice R patterns fn.2
        Except.ok (fn.1 ++ " " ++ p.1, p.2),
       fun s0 => do
        let t ← pyChoice R cfg.nameComponents.treeNames s0
        let p ← pyChoice R patterns t.2
        Except.ok (t.1 ++ " " ++ p.1, p.2),
       fun s0 => do
        let t ← pyChoice R cfg.nameComponents.streetPrefixes s0
        let p ← pyChoice R patterns t.2
        Except.ok (t.1 ++ " " ++ p.1, p.2),
       fun s0 => do
        let t ← pyChoice R cfg.nameComponents.directionalPrefixes s0
        let p ← pyChoice R patterns t.2
        Except.ok (t.1 ++ " " ++ p.1, p.2),
       fun s0 => do
        let t ← pyChoice R cfg.nameComponents.ordinalPrefixes s0
        let p ← pyChoice R patterns t.2
        Except.ok (t.1 ++ " " ++ p.1, p.2)]
    do
      let m ← pyChoice R methods st
      m.1 m.2

/-- `TownGenerator._generate_business_name`: the source builds the candidate
pattern list eagerly (consuming faker and random draws for every candidate)
and then `random.choice`s one. -/
def generateBusinessName (cfg : TownConfig) (R : RandOps σ) (F : FakerOps φ)
    (btype : String) (st : GState σ φ) : Except String (String × GState σ φ) :=
  if btype = ("Restaurant/Café") then do
    let ln := onF F.lastName st
    let p1 := ln.1 ++ ("\x27s Restaurant")
    let adj ← pyChoice R cfg.nameComponents.businessAdjDescriptive ln.2
    let noun ← pyChoice R cfg.nameComponents.businessNounsRestaurant adj.2
    let p2 := ("The ") ++ adj.1 ++ " " ++ noun.1
    let mama ← pyChoice R [("Mama" : String), ("Papa"), ("Tony"), ("Mario"), ("Luigi")] noun.2
    let dish ← pyChoice R [("Pizza" : String), ("Diner"), ("Bistro"), ("Café")] mama.2
    let p3 := mama.1 ++ ("\x27s ") ++ dish.1
    let cityDraw := onF F.city dish.2
    let grill ← pyChoice R [("Grill" : String), ("Diner"), ("Café"), ("Bistro")] cityDraw.2
    let p4 := cityDraw.1.take 6 ++ " " ++ grill.1
    pyChoice R [p1, p2, p3, p4] grill.2
  else if btype = ("Retail Store") then do
    let ln := onF F.lastName st
    let noun ← pyChoice R cfg.nameComponents.businessNounsRetail ln.2
    let p1 := ln.1 ++ ("\x27s ") ++ noun.1
    let locAdj ← pyChoice R cfg.nameComponents.businessAdjLocationBased noun.2
    let m1 ← pyChoice R [("Market" : String), ("Store"), ("Shop")] locAdj.2
    let p2 := locAdj.1 ++ " " ++ m1.1
    let szAdj ← pyChoice R cfg.nameComponents.businessAdjSizeBased m1.2
    let m2 ← pyChoice R [("Shop" : String), ("Store"), ("Market")] szAdj.2
    let p3 := ("The ") ++ szAdj.1 ++ " " ++ m2.1
    pyChoice R [p1, p2, p3] m2.2
  else if btype = ("Gas Station") then do
    let spAdj ← pyChoice R cfg.nameComponents.businessAdjSpeedBased st
    let gnoun ← pyChoice R cfg.nameComponents.businessNounsGas spAdj.2
    let p1 := spAdj.1 ++ " " ++ gnoun.1
    let ln := onF F.lastName gnoun.2
    let g1 ← pyChoice R [("Gas" : String), ("Fuel"), ("Service")] ln.2
    let p2 := ln.1 ++ ("\x27s ") ++ g1.1
    let locAdj ← pyChoice R cfg.nameComponents.businessAdjLocationBased g1.2
    let g2 ← pyChoice R [("Gas" : String), ("Fuel"), ("Station")] locAdj.2
    let p3 := locAdj.1 ++ " " ++ g2.1
    pyChoice R [p1, p2, p3] g2.2
  else do
    let root := (btype.splitOn ("/")).headD ("")
    let ln := onF F.lastName st
    let p1 := ln.1 ++ ("\x27s ") ++ root
    let cityDraw := onF F.city ln.2
    let p2 := cityDraw.1.take 6 ++ " " ++ root
    let adj ← pyChoice R cfg.nameComponents.businessAdjDescriptive cityDraw.2
    let p3 := adj.1 ++ " " ++ root
    pyChoice R [p1, p2, p3] adj.2

/-- `TownGenerator._generate_landmark_name`. -/
def generateLandmarkName (R : RandOps σ) (F : FakerOps φ) (ltype : String)
    (st : GState σ φ) : Except String (String × GState σ φ) :=
  if strContains ("Church") ltype then
    let fn := onF F.firstName st
    Except.ok (("St. ") ++ fn.1 ++ ("\x27s Church"), fn.2)
  else if ltype = ("Monument") then do
    let ln := onF F.lastName st
    let w ← pyChoice R [("Monument" : String), ("Memorial")] ln.2
    Except.ok (ln.1 ++ " " ++ w.1, w.2)
  else if ltype = ("Statue") then
    let nm := onF F.fullName st
    Except.ok (nm.1 ++ (" Statue"), nm.2)
  else if ltype = ("Historic Building") then do
    let w ← pyChoice R
      [("Town Hall" : String), ("Opera House"), ("Bank Building"), ("Hotel"), ("Mill")] st
    Except.ok (("Old ") ++ w.1, w.2)
  else if ltype = ("Museum") then do
    let cityDraw := onF F.city st
    let w ← pyChoice R [("History" : String), ("Art"), ("Natural History")] cityDraw.2
    Except.ok (cityDraw.1.take 8 ++ " " ++ w.1 ++ (" Museum"), w.2)
  else
    let cityDraw := onF F.city st
    Except.ok (cityDraw.1.take 8 ++ " " ++ ltype, cityDraw.2)

/-- `TownGenerator._generate_park_name`: eager candidate list, then choice. -/
def generateParkName (cfg : TownConfig) (R : RandOps σ) (F : FakerOps φ)
    (ptype : String) (st : GState σ φ) : Except String (String × GState σ φ) := do
  let ln := onF F.lastName st
  let p1 := ln.1 ++ " " ++ ptype
  let pp ← pyChoice R cfg.nameComponents.parkPrefixes ln.2
  let p2 := pp.1 ++ " " ++ ptype
  let tn ← pyChoice R cfg.nameComponents.treeNames pp.2
  let p3 := tn.1 ++ " " ++ ptype
  let p4 := ("Memorial ") ++ ptype
  pyChoice R [p1, p2, p3, p4] tn.2

/-- `TownGenerator._generate_school_name`. -/
def generateSchoolName (F : FakerOps φ) (schtype : String) (st : GState σ φ) :
    String × GState σ φ :=
  if strContains ("Elementary") schtype then
    let ln := onF F.lastName st
    (ln.1 ++ (" Elementary School"), ln.2)
  else if strContains ("Middle") schtype then
    let c := onF F.city st
    (c.1.take 8 ++ (" Middle School"), c.2)
  else if strContains ("High") schtype then
    let c := onF F.city st
    (c.1.take 8 ++ (" High School"), c.2)
  else
    let ln := onF F.lastName st
    (ln.1 ++ " " ++ schtype, ln.2)

/-- CPython `random.choices(xs, k=k)` without weights: k independent draws of
`xs[floor(random() * len(xs))]`. -/
def uniformChoicesK (R : RandOps σ) (xs : List α) :
    Nat → GState σ φ → Except String (List α × GState σ φ)
  | 0, st => Except.ok ([], st)
  | Nat.succ k, st =>
    let draw := onR R.randfloat st
    match xs.get? (draw.1 * xs.length).floor.toNat with
    | none => Except.error ("IndexError: list index out of range")
    | some x => do
      let rest ← uniformChoicesK R xs k draw.2
      Except.ok (x :: rest.1, rest.2)

/-- One street of the `generate_town` streets loop: uuid, synthesized name,
uniform type, rounded uniform length. -/
def generateStreet (cfg : TownConfig) (R : RandOps σ) (F : FakerOps φ)
    (ent : Nat → String) (st : GState σ φ) : Except String (Street × GState σ φ) := do
  let sid := useUuid ent st
  let nm ← generateStreetName cfg R F sid.2
  let ty ← pyChoice R [("Residential" : String), ("Commercial"), ("Mixed"), ("Industrial")] nm.2
  let len := onR (R.uniform (1/5) (5/2)) ty.2
  Except.ok ({ id := sid.1, name := nm.1, stype := ty.1, lengthKm := pyRound2 len.1 }, len.2)

/-- The `for _ in range(street_count)` loop of `generate_town`. -/
def generateStreets (cfg : TownConfig) (R : RandOps σ) (F : FakerOps φ)
    (ent : Nat → String) : Nat → GState σ φ → Except String (List Street × GState σ φ)
  | 0, st => Except.ok ([], st)
  | Nat.succ k, st => do
    let s ← generateStreet cfg R F ent st
    let rest ← generateStreets cfg R F ent k s.2
    Except.ok (s.1 :: rest.1, rest.2)

/-- One business of the `generate_town` businesses loop: weighted type, uuid,
synthesized name, a uniformly chosen existing street's name, counts. -/
def generateBusiness (cfg : TownConfig) (R : RandOps σ) (F : FakerOps φ)
    (ent : Nat → String) (streets : List Street) (st : GState σ φ) :
    Except String (Business × GState σ φ) := do
  let bt ← pyChoicesPop R (cfg.businessTypes.map Prod.fst) (cfg.businessTypes.map Prod.snd) st
  let bid := useUuid ent bt.2
  let bn ← generateBusinessName cfg R F bt.1 bid.2
  let sn ← pyChoice R streets bn.2
  let employees := onR (R.randint 1 50) sn.2
  let est := onR (R.randint 1950 2023) employees.2
  Except.ok (
    { id := bid.1, name := bn.1, btype := bt.1, street := sn.1.name,
      employees := employees.1, establishedYear := est.1 }, est.2)

/-- The businesses loop. -/
def generateBusinesses (cfg : TownConfig) (R : RandOps σ) (F : FakerOps φ)
    (ent : Nat → String) (streets : List Street) :
    Nat → GState σ φ → Except String (List Business × GState σ φ)
  | 0, st => Except.ok ([], st)
  | Nat.succ k, st => do
    let b ← generateBusiness cfg R F ent streets st
    let rest ← generateBusinesses cfg R F ent streets k b.2
    Except.ok (b.1 :: rest.1, rest.2)

/-- One landmark of the landmarks loop. -/
def generateLandmark (cfg : TownConfig) (R : RandOps σ) (F : FakerOps φ)
    (ent : Nat → String) (streets : List Street) (st : GState σ φ) :
    Except String (Landmark × GState σ φ) := do
  let lt ← pyChoice R cfg.landmarkTypes st
  let lid := useUuid ent lt.2
  let lnm ← generateLandmarkName R F lt.1 lid.2
  let sn ← pyChoice R streets lnm.2
  let est := onR (R.randint 1800 2020) sn.2
  let hs ← pyChoice R cfg.nameComponents.historicalSignificanceLevels est.2
  Except.ok (
    { id := lid.1, name := lnm.1, ltype := lt.1, street := sn.1.name,
      establishedYear := est.1, historicalSignificance := hs.1 }, hs.2)

/-- The landmarks loop. -/
def generateLandmarks (cfg : TownConfig) (R : RandOps σ) (F : FakerOps φ)
    (ent : Nat → String) (streets : List Street) :
    Nat → GState σ φ → Except String (List Landmark × GState σ φ)
  | 0, st => Except.ok ([], st)
  | Nat.succ k, st => do
    let l ← generateLandmark cfg R F ent streets st
    let rest ← generateLandmarks cfg R F ent streets k l.2
    Except.ok (l.1 :: rest.1, rest.2)

/-- One park of the parks loop (parks carry no street reference). -/
def generatePark (cfg : TownConfig) (R : RandOps σ) (F : FakerOps φ)
    (ent : Nat → String) (st : GState σ φ) : Except String (Park × GState σ φ) := do
  let pt ← pyChoice R cfg.parkTypes st
  let pid := useUuid ent pt.2
  let pn ← generateParkName cfg R F pt.1 pid.2
  let area := onR (R.uniform (1/2) 20) pn.2
  let fk := onR (R.randint 1 4) area.2
  let facs ← uniformChoicesK R cfg.nameComponents.facilityTypes fk.1.toNat fk.2
  Except.ok (
    { id := pid.1, name := pn.1, ptype := pt.1, areaHectares := pyRound2 area.1,
      facilities := facs.1 }, facs.2)

/-- The parks loop. -/
def generateParks (cfg : TownConfig) (R : RandOps σ) (F : FakerOps φ)
    (ent : Nat → String) : Nat → GState σ φ → Except String (List Park × GState σ φ)
  | 0, st => Except.ok ([], st)
  | Nat.succ k, st => do
    let p ← generatePark cfg R F ent st
    let rest ← generateParks cfg R F ent k p.2
    Except.ok (p.1 :: rest.1, rest.2)

/-- One school of the schools loop. -/
def generateSchool (cfg : TownConfig) (R : RandOps σ) (F : FakerOps φ)
    (ent : Nat → String) (streets : List Street) (st : GState σ φ) :
    Except String (School × GState σ φ) := do
  let sct ← pyChoice R cfg.schoolTypes st
  let sid := useUuid ent sct.2
  let snm := generateSchoolName F sct.1 sid.2
  let stn ← pyChoice R streets snm.2
  let students := onR (R.randint 50 1200) stn.2
  let est := onR (R.randint 1900 2020) students.2
  Except.ok (
    { id := sid.1, name := snm.1, schtype := sct.1, street := stn.1.name,
      students := students.1, establishedYear := est.1 }, est.2)

/-- The schools loop. -/
def generateSchools (cfg : TownConfig) (R : RandOps σ) (F : FakerOps φ)
    (ent : Nat → String) (streets : List Street) :
    Nat → GState σ φ → Except String (List School × GState σ φ)
  | 0, st => Except.ok ([], st)
  | Nat.succ k, st => do
    let s ← generateSchool cfg R F ent streets st
    let rest ← generateSchools cfg R F ent streets k s.2
    Except.ok (s.1 :: rest.1, rest.2)

/-- One public service of the services loop: the name is the town name plus
the service type, with no extra draw. -/
def generateService (cfg : TownConfig) (R : RandOps σ) (_F : FakerOps φ)
    (ent : Nat → String) (townName : String) (streets : List Street) (st : GState σ φ) :
    Except String (Service × GState σ φ) := do
  let svt ← pyChoice R cfg.serviceTypes st
  let sid := useUuid ent svt.2
  let stn ← pyChoice R streets sid.2
  let h1 := onR (R.randint 6 9) stn.2
  let h2 := onR (R.randint 4 8) h1.2
  let staff := onR (R.randint 2 25) h2.2
  Except.ok (
    { id := sid.1, name := townName ++ " " ++ svt.1, svtype := svt.1,
      street := stn.1.name,
      operatingHours := toString h1.1 ++ (":00 AM - ") ++ toString h2.1 ++ (":00 PM"),
      staffCount := staff.1 }, staff.2)

/-- The services loop. -/
def generateServices (cfg : TownConfig) (R : RandOps σ) (F : FakerOps φ)
    (ent : Nat → String) (townName : String) (streets : List Street) :
    Nat → GState σ φ → Except String (List Service × GState σ φ)
  | 0, st => Except.ok ([], st)
  | Nat.succ k, st => do
    let s ← generateService cfg R F ent townName streets st
    let rest ← generateServices cfg R F ent townName streets k s.2
    Except.ok (s.1 :: rest.1, rest.2)

/-- `TownGenerator.generate_town`: validate the size tier, then generate
population, streets, businesses, landmarks, parks, schools and services in
source order and assemble the town dict (town id is a fresh uuid4, and
`generated_at` is `datetime.now().isoformat()`, modelled by `nowIso`). -/
def generateTown (cfg : TownConfig) (R : RandOps σ) (F : FakerOps φ)
    (ent : Nat → String) (nowIso : String) (townNameArg : Option String)
    (size : String) (st : GState σ φ) : Except String (Town × GState σ φ) :=
  match alookup cfg.townSizes size with
  | none => Except.error ("ValueError: Invalid size " ++ size)
  | some sc => do
    let tn := match townNameArg with
      | some n => ((n, st))
      | none => onF F.city st
    let pop := onR (R.randint sc.populationRange.1 sc.populationRange.2) tn.2
    let stc := onR (R.randint sc.streetCountRange.1 sc.streetCountRange.2) pop.2
    let streets ← generateStreets cfg R F ent stc.1.toNat stc.2
    let bc := onR (R.randint sc.businessCountRange.1 sc.businessCountRange.2) streets.2
    let businesses ← generateBusinesses cfg R F ent streets.1 bc.1.toNat bc.2
    let lc := onR (R.randint sc.landmarkCountRange.1 sc.landmarkCountRange.2) businesses.2
    let landmarks ← generateLandmarks cfg R F ent streets.1 lc.1.toNat lc.2
    let pc := onR (R.randint sc.parkCountRange.1 sc.parkCountRange.2) landmarks.2
    let parks ← generateParks cfg R F ent pc.1.toNat pc.2
    let scc := onR (R.randint sc.schoolCountRange.1 sc.schoolCountRange.2) parks.2
    let schools ← generateSchools cfg R F ent streets.1 scc.1.toNat scc.2
    let svc := onR (R.randint sc.serviceCountRange.1 sc.serviceCountRange.2) schools.2
    let services ← generateServices cfg R F ent tn.1 streets.1 svc.1.toNat svc.2
    let tid := useUuid ent services.2
    let areaDiv := onR (R.randint 100 500) tid.2
    let founded := onR (R.randint 1600 1950) areaDiv.2
    let elev := onR (R.randint 0 1500) founded.2
    let climate ← pyChoice R cfg.nameComponents.climateTypes elev.2
    Except.ok (
      { id := tid.1, name := tn.1,
        country := alookupD cfg.countryMapping cfg.locale ("Unknown"),
        locale := cfg.locale, sizeCategory := size, population := pop.1,
        areaSqKm := pyRound2 ((pop.1 : ℚ) / (areaDiv.1 : ℚ)),
        foundedYear := founded.1, elevationM := elev.1, climate := climate.1,
        streets := streets.1, businesses := businesses.1, landmarks := landmarks.1,
        parks := parks.1, schools := schools.1, services := services.1,
        generatedAt := nowIso }, climate.2)

/-- One configured author from article_config.yaml. -/
structure Author where
  name : String
  persona : String
  writingStyle : String
  specialties : List String
deriving DecidableEq, Inhabited

/-- The author-selection block of `create_new_story`: filter the authors whose
specialties contain the chosen category; if none, uniform over all authors;
otherwise with `random.random() < 0.7` uniform over the specialists and with
the remaining 30% uniform over all authors. -/
def chooseAuthor (R : RandOps σ) (authors : List Author) (category : String)
    (s : σ) : Except String (Author × σ) :=
  let categoryAuthors := authors.filter (fun a => a.specialties.contains category)
  if categoryAuthors.isEmpty then pyChoiceCore R authors s
  else
    let draw := R.randfloat s
    if draw.1 < 7/10 then pyChoiceCore R categoryAuthors draw.2
    else pyChoiceCore R authors draw.2

/-- A tabular CSV store file: a header row of column names and data rows of
cell strings (positional; pandas NaN and the empty CSV field coincide as ""). -/
structure DF where
  cols : List String
  rows : List (List String)
deriving DecidableEq, Inhabited

/-- The `expected_columns` list of `create_new_story`. -/
def expectedColumns : List String :=
  [("article_id"), ("title"), ("slug"), ("body"), ("summary"),
   ("publication_date"), ("last_updated"), ("author"),
   ("author_persona"), ("author_style"), ("category"),
   ("status"), ("story_status"), ("town_data"), ("people_data"),
   ("seriousness")]

/-- The slug derivation in the `article` dict of `create_new_story`. -/
def slugOf (title : String) : String :=
  (((((title.toLower.replace (" ") ("-")).replace (",") ("")).replace (".") ("")).replace
    ("\x27") ("")).replace ("\x22") ("")).take 50

/-- The `article` dict that `create_new_story` builds (keys in source order;
`status` and `story_status` are literals; no `town_data`/`people_data` key). -/
def mkArticleRecord (articleId title body summary pubDate lastUpdated author
    authorPersona authorStyle category seriousness : String) :
    List (String × String) :=
  [(("article_id"), articleId), (("title"), title), (("slug"), slugOf title),
   (("body"), body), (("summary"), summary), (("publication_date"), pubDate),
   (("last_updated"), lastUpdated), (("author"), author),
   (("author_persona"), authorPersona), (("author_style"), authorStyle),
   (("category"), category), (("status"), ("Draft")),
   (("story_status"), ("Ongoing")), (("seriousness"), seriousness)]

/-- `pd.DataFrame([article])`: one-row frame in the dict's key order. -/
def articleDf (rec : List (String × String)) : DF :=
  { cols := rec.map Prod.fst, rows := [rec.map Prod.snd] }

/-- Index of a column label in a header (first occurrence). -/
def colIdx (cols : List String) (c : String) : Option Nat :=
  match cols with
  | [] => none
  | c0 :: rest => if c0 = c then some 0 else (colIdx rest c).map (fun i => i + 1)

/-- The value of labelled column `c` in a positional row under header `cols`
(missing label or short row reads as the empty/NaN cell). -/
def rowCell (cols : List String) (r : List String) (c : String) : String :=
  match colIdx cols c with
  | some i => r.getD i ""
  | none => ""

/-- `pd.read_csv` row normalization: pandas pads short rows to the header
width with NaN cells. -/
def padRow (n : Nat) (r : List String) : List String :=
  r.take n ++ List.replicate (n - r.length) ""

/-- The parsed view of a stored CSV file. -/
def readDf (f : DF) : DF :=
  { cols := f.cols, rows := f.rows.map (padRow f.cols.length) }

/-- Python `set(a) == set(b)` on column lists. -/
def sameColSet (a b : List String) : Bool :=
  a.all (fun c => b.contains c) && b.all (fun c => a.contains c)

/-- The `for col in expected_columns: if col not in existing_df.columns:
existing_df[col] = ""` loop: append each missing column, empty-filled. -/
def addMissing (e : DF) (want : List String) : DF :=
  { cols := e.cols ++ want.filter (fun c => !(e.cols.contains c)),
    rows := e.rows.map
      (fun r => r ++ List.replicate (want.filter (fun c => !(e.cols.contains c))).length "") }

/-- `existing_df = existing_df[expected_columns]`: label-select and reorder
the columns; columns outside `want` are dropped. -/
def selectCols (e : DF) (want : List String) : DF :=
  { cols := want, rows := e.rows.map (fun r => want.map (rowCell e.cols r)) }

/-- `pd.concat([a, b], ignore_index=True)`: keep a's columns, add b's extra
columns (empty-filled for a's rows), reindex b's rows to the union header. -/
def dfConcat (a b : DF) : DF :=
  { cols := a.cols ++ b.cols.filter (fun c => !(a.cols.contains c)),
    rows := a.rows.map
        (fun r => r ++ List.replicate (b.cols.filter (fun c => !(a.cols.contains c))).length "")
      ++ b.rows.map
        (fun r => (a.cols ++ b.cols.filter (fun c => !(a.cols.contains c))).map (rowCell b.cols r)) }

/-- Which branch the CSV write of `create_new_story` took. -/
inductive WritePath where
  | createNew
  | rewriteEmpty
  | appendPlain
  | migrate
deriving DecidableEq

/-- Result of one store write: the file afterwards, the `.bak` backup if one
was made, and the branch taken. -/
structure WriteResult where
  file : DF
  backup : Option DF
  path : WritePath
deriving DecidableEq

/-- The persistence tail of `create_new_story`: create the file if absent;
rewrite it if present but empty; if the stored column set differs from
`expected_columns`, back up to `.bak`, add missing columns empty-filled,
reorder/filter to the canonical schema and concat the new record; otherwise
append the new record's row in place (`mode='a'`, `header=False`). -/
def storeWrite (file : Option DF) (adf : DF) : WriteResult :=
  match file with
  | none => { file := adf, backup := none, path := WritePath.createNew }
  | some f =>
    if f.cols.isEmpty then { file := adf, backup := none, path := WritePath.rewriteEmpty }
    else
      let e := readDf f
      if sameColSet e.cols expectedColumns then
        { file := { cols := f.cols, rows := f.rows ++ adf.rows },
          backup := none, path := WritePath.appendPlain }
      else
        { file := dfConcat (selectCols (addMissing e expectedColumns) expectedColumns) adf,
          backup := some f, path := WritePath.migrate }

theorem exceptBind_ok (a : α) (f : α → Except String β) :
    (Except.ok a >>= f : Except String β) = f a := rfl

theorem exceptBind_error (e : String) (f : α → Except String β) :
    ((Except.error e : Except String α) >>= f) = Except.error e := rfl

theorem bisectRight_ones (r : ℚ) (h1 : r < 1) :
    bisectRight [1, 1, 1] r 0 2 = 0 := by
  rw [bisectRight]
  simp only [show (0 : Nat) < 2 by omega, dif_pos]
  norm_num [h1]
  rw [bisectRight]
  simp only [show (0 : Nat) < 1 by omega, dif_pos]
  norm_num [h1]
  rw [bisectRight]
  simp

/-- C7: the weighted draw used throughout the generators (`random.choices`)
rejects an all-zero weight list with the error the spec calls
InvalidWeightsError, and over weights [1, 0, 0] it always returns option 0,
for every random source and state. -/
theorem weighted_draw_c7 (σ : Type) (R : RandOps σ) (hWF : RandWF R) (s : σ) :
    (∀ ws : List ℚ, ws ≠ [] → (∀ w ∈ ws, w = 0) →
      pyChoices1 R ws.length ws s =
        Except.error ("ValueError: Total of weights must be greater than zero")) ∧
    pyChoices1 R 3 [1, 0, 0] s = Except.ok (0, (R.randfloat s).2) := by
  constructor
  · intro ws hne hzero
    unfold pyChoices1
    dsimp only
    rw [accumFrom_getLast? ws hne 0, List.sum_eq_zero hzero]
    norm_num
  · have hr1 := (hWF.2.1 s).2
    unfold pyChoices1
    norm_num [accumFrom]
    rw [bisectRight_ones (R.randfloat s).1 hr1]

/-- A concrete well-formed deterministic random source used by witnesses. -/
def Rdet : RandOps Nat :=
  { randint := fun a _ s => (a, s + 1),
    randfloat := fun s => (0, s + 1),
    uniform := fun a _ s => (a, s + 1),
    choiceIdx := fun _ s => (0, s + 1) }

theorem Rdet_wf : RandWF Rdet := by
  refine ⟨?_, ?_, ?_, ?_⟩
  · intro a b s h; exact ⟨le_refl a, h⟩
  · intro s; norm_num [Rdet]
  · intro a b s h; exact ⟨le_refl a, h⟩
  · intro n s h; exact h

/-- C7 witness at the concrete source `Rdet` and state 0. -/
theorem weighted_draw_c7_witness :
    pyChoices1 Rdet 3 [0, 0, 0] 0 =
      Except.error ("ValueError: Total of weights must be greater than zero") ∧
    pyChoices1 Rdet 3 [1, 0, 0] 0 = Except.ok (0, 1) := by
  constructor
  · exact (weighted_draw_c7 Nat Rdet Rdet_wf 0).1 [0, 0, 0] (by decide) (by decide)
  · exact (weighted_draw_c7 Nat Rdet Rdet_wf 0).2

/-- C9: author selection in `create_new_story`. If any configured author lists
the chosen category among their specialties, then when the gate draw is below
0.7 the author comes uniformly from those specialists, and otherwise uniformly
from all authors; with no specialist the author comes uniformly from all
authors. (The gate `random.random() < 0.7` holds with probability 0.7 for a
uniform draw on [0,1).) -/
theorem author_choice_c9 (σ : Type) (R : RandOps σ) (hWF : RandWF R)
    (authors : List Author) (category : String) (s : σ) (hne : authors ≠ []) :
    ∃ a s1, chooseAuthor R authors category s = Except.ok (a, s1) ∧
      ((authors.filter (fun a0 => a0.specialties.contains category)) = [] → a ∈ authors) ∧
      ((authors.filter (fun a0 => a0.specialties.contains category)) ≠ [] →
        (R.randfloat s).1 < 7/10 →
        a ∈ authors.filter (fun a0 => a0.specialties.contains category)) ∧
      ((authors.filter (fun a0 => a0.specialties.contains category)) ≠ [] →
        ¬ (R.randfloat s).1 < 7/10 → a ∈ authors) ∧
      (∀ x ∈ authors.filter (fun a0 => a0.specialties.contains category),
        x.specialties.contains category = true) := by
  have hfilter : ∀ x ∈ authors.filter (fun a0 => a0.specialties.contains category),
      x.specialties.contains category = true := by
    intro x hx
    exact (List.mem_filter.mp hx).2
  unfold chooseAuthor
  by_cases hc : (authors.filter (fun a0 => a0.specialties.contains category)).isEmpty
  · have hnil : authors.filter (fun a0 => a0.specialties.contains category) = [] := by
      simpa [List.isEmpty_iff] using hc
    obtain ⟨x, hx, hmem⟩ := pyChoiceCore_ok R hWF authors s hne
    exact ⟨x, (R.choiceIdx authors.length s).2, by rw [if_pos hc]; exact hx, fun _ => hmem,
      fun hcontra _ => absurd hnil hcontra, fun _ _ => hmem, hfilter⟩
  · have hnil : authors.filter (fun a0 => a0.specialties.contains category) ≠ [] := by
      intro hcontra
      rw [hcontra] at hc
      exact hc rfl
    by_cases hr : (R.randfloat s).1 < 7/10
    · obtain ⟨x, hx, hmem⟩ := pyChoiceCore_ok R hWF
        (authors.filter (fun a0 => a0.specialties.contains category)) (R.randfloat s).2 hnil
      refine ⟨x,
        (R.choiceIdx (authors.filter
          (fun a0 => a0.specialties.contains category)).length (R.randfloat s).2).2,
        ?_, fun hcontra => absurd hcontra hnil, fun _ _ => hmem,
        fun _ hcontra => absurd hr hcontra, hfilter⟩
      rw [if_neg hc]
      dsimp only
      rw [if_pos hr]
      exact hx
    · obtain ⟨x, hx, hmem⟩ := pyChoiceCore_ok R hWF authors (R.randfloat s).2 hne
      refine ⟨x, (R.choiceIdx authors.length (R.randfloat s).2).2,
        ?_, fun _ => hmem, fun _ hcontra => absurd hcontra hr,
        fun _ _ => hmem, hfilter⟩
      rw [if_neg hc]
      dsimp only
      rw [if_neg hr]
      exact hx

/-- Concrete authors for the C9 witness: Alice specializes in Politics. -/
def authorsW : List Author :=
  [{ name := ("Alice"), persona := ("calm"), writingStyle := ("dry"),
     specialties := [("Politics")] },
   { name := ("Bob"), persona := ("keen"), writingStyle := ("vivid"),
     specialties := [("Sports")] }]

/-- C9 witness: with the concrete source `Rdet` (gate draw 0 < 0.7), the
chosen author is one of the Politics specialists. -/
theorem author_choice_c9_witness :
    ∃ a s1, chooseAuthor Rdet authorsW ("Politics") 0 = Except.ok (a, s1) ∧
      a ∈ authorsW.filter (fun a0 => a0.specialties.contains ("Politics")) := by
  obtain ⟨a, s1, hok, _, hspec, _, _⟩ :=
    author_choice_c9 Nat Rdet Rdet_wf authorsW ("Politics") 0 (by decide)
  exact ⟨a, s1, hok, hspec (by decide) (by norm_num [Rdet])⟩

/-- C4: `_generate_income` branches on employment status first — unemployed or
student gives a uniform integer in [MIN_INCOME, UNEMPLOYED_MAX_INCOME],
retired in [RETIRED_MIN_INCOME, RETIRED_MAX_INCOME], part-time in
[PART_TIME_MIN_INCOME, PART_TIME_MAX_INCOME] — and otherwise equals
base income by education times the three-band age multiplier (peak band,
general working-age band, else reduced) times a uniform jitter in [0.7, 1.5],
truncated to an integer and floored at MIN_INCOME. -/
theorem income_c4 (σ φ : Type) (R : RandOps σ) (hWF : RandWF R) (cfg : PeopleConfig)
    (education employment : String) (age : Int) (st : GState σ φ)
    (h1 : cfg.minIncome ≤ cfg.unemployedMaxIncome)
    (h2 : cfg.retiredMinIncome ≤ cfg.retiredMaxIncome)
    (h3 : cfg.partTimeMinIncome ≤ cfg.partTimeMaxIncome) :
    ((strContains ("Unemployed") employment = true ∨
      strContains ("Student") employment = true) →
      cfg.minIncome ≤ (generateIncome cfg R education employment age st).1 ∧
      (generateIncome cfg R education employment age st).1 ≤ cfg.unemployedMaxIncome) ∧
    (strContains ("Unemployed") employment = false →
      strContains ("Student") employment = false →
      strContains ("Retired") employment = true →
      cfg.retiredMinIncome ≤ (generateIncome cfg R education employment age st).1 ∧
      (generateIncome cfg R education employment age st).1 ≤ cfg.retiredMaxIncome) ∧
    (strContains ("Unemployed") employment = false →
      strContains ("Student") employment = false →
      strContains ("Retired") employment = false →
      strContains ("part-time") employment = true →
      cfg.partTimeMinIncome ≤ (generateIncome cfg R education employment age st).1 ∧
      (generateIncome cfg R education employment age st).1 ≤ cfg.partTimeMaxIncome) ∧
    (strContains ("Unemployed") employment = false →
      strContains ("Student") employment = false →
      strContains ("Retired") employment = false →
      strContains ("part-time") employment = false →
      (7 : ℚ)/10 ≤ (R.uniform (7/10) (3/2) st.r).1 ∧
      (R.uniform (7/10) (3/2) st.r).1 ≤ 3/2 ∧
      (generateIncome cfg R education employment age st).1 =
        max cfg.minIncome (pyTrunc
          (alookupD educationIncomeMap education 35000 *
            (if cfg.peakEarningAgeStart ≤ age ∧ age ≤ cfg.peakEarningAgeEnd then
              cfg.peakEarningMultiplier
            else if cfg.workingAgeStart ≤ age ∧ age ≤ cfg.workingAgeEnd then
              cfg.normalEarningMultiplier
            else cfg.reducedEarningMultiplier) *
            (R.uniform (7/10) (3/2) st.r).1))) := by
  refine ⟨?_, ?_, ?_, ?_⟩
  · intro h
    have : (strContains ("Unemployed") employment ||
        strContains ("Student") employment) = true := by
      rcases h with h | h <;> simp [h]
    unfold generateIncome
    rw [if_pos this]
    simpa [onR] using hWF.1 cfg.minIncome cfg.unemployedMaxIncome st.r h1
  · intro hU hS hR
    unfold generateIncome
    rw [if_neg (by simp [hU, hS]), if_pos (by simp [hR])]
    simpa [onR] using hWF.1 cfg.retiredMinIncome cfg.retiredMaxIncome st.r h2
  · intro hU hS hR hP
    unfold generateIncome
    rw [if_neg (by simp [hU, hS]), if_neg (by simp [hR]), if_pos (by simp [hP])]
    simpa [onR] using hWF.1 cfg.partTimeMinIncome cfg.partTimeMaxIncome st.r h3
  · intro hU hS hR hP
    obtain ⟨hj1, hj2⟩ := hWF.2.2.1 (7/10) (3/2) st.r (by norm_num)
    refine ⟨hj1, hj2, ?_⟩
    unfold generateIncome
    rw [if_neg (by simp [hU, hS]), if_neg (by simp [hR]), if_neg (by simp [hP])]
    simp [onR]

/-- C5: the temperament draw scores every catalog temperament as
`max(0.1, 1.0 + age adjustment + education adjustment + employment
adjustment)` — base weight 1.0, three independently config-driven adjustments
keyed by temperament name and symbolic condition tags, floor 0.1 — so every
temperament keeps a strictly positive weight, and the temperament is a
weighted draw over exactly these scores. -/
theorem temperament_c5 (σ φ : Type) (R : RandOps σ) (cfg : PeopleConfig) (age : Int)
    (education employment : String) (st : GState σ φ) :
    (temperamentWeights cfg age education employment).length =
      cfg.temperaments.length ∧
    (∀ i, (temperamentWeights cfg age education employment).get? i =
      (cfg.temperaments.get? i).map (fun t =>
        max (1/10) (1 + getAgeWeightAdjustment cfg t.ttype age
          + getEducationWeightAdjustment cfg t.ttype education
          + getEmploymentWeightAdjustment cfg t.ttype employment))) ∧
    (∀ w ∈ temperamentWeights cfg age education employment, (1 : ℚ)/10 ≤ w ∧ 0 < w) ∧
    (cfg.temperaments ≠ [] →
      ∃ t st1, generateTemperament cfg R age education employment st =
        Except.ok (t, st1) ∧ t ∈ cfg.temperaments) := by
  have hpos : ∀ w ∈ temperamentWeights cfg age education employment, (1 : ℚ)/10 ≤ w ∧ 0 < w := by
    intro w hw
    unfold temperamentWeights at hw
    obtain ⟨t, _, ht⟩ := List.mem_map.mp hw
    constructor
    · rw [← ht]; exact le_max_left _ _
    · rw [← ht]; exact lt_of_lt_of_le (by norm_num) (le_max_left _ _)
  refine ⟨List.length_map _ _, ?_, hpos, ?_⟩
  · intro i
    unfold temperamentWeights calculateTemperamentWeight
    rw [List.get?_map]
  · intro hne
    have hwne : temperamentWeights cfg age education employment ≠ [] := by
      intro hcontra
      exact hne (List.map_eq_nil.mp hcontra)
    have hsum : 0 < (temperamentWeights cfg age education employment).sum :=
      List.sum_pos _ (fun w hw => (hpos w hw).2) hwne
    obtain ⟨t, hok, hmem⟩ := pyChoicesPop_ok R cfg.temperaments
      (temperamentWeights cfg age education employment) st (List.length_map _ _) hne hsum
    exact ⟨t, _, hok, hmem⟩

/-- A concrete Faker source for witnesses. -/
def Fdet : FakerOps Nat :=
  { firstName := fun f => (("Alex"), f + 1),
    firstNameMale := fun f => (("John"), f + 1),
    firstNameFemale := fun f => (("Mary"), f + 1),
    lastName := fun f => (("Smith"), f + 1),
    fullName := fun f => (("John Smith"), f + 1),
    job := fun f => (("Engineer"), f + 1),
    city := fun f => (("Hackney"), f + 1),
    address := fun f => (("1 Lane\nTown"), f + 1),
    phoneNumber := fun f => (("555-0100"), f + 1),
    email := fun f => (("a@b.c"), f + 1),
    state := fun f => (("London"), f + 1),
    postcode := fun f => (("E8 1AA"), f + 1),
    zipcode := fun f => (("12345"), f + 1),
    hasState := true, hasCity := true, hasPostcode := true }

/-- A concrete initial world state for witnesses. -/
def st0 : GState Nat Nat := { r := 0, f := 0, u := 0 }

/-- A concrete temperament catalog for witnesses. -/
def temperamentsW : List Temperament :=
  [{ ttype := ("Optimistic"), description := ("sees the good in situations"),
     traits := [("positive"), ("hopeful"), ("cheerful")] },
   { ttype := ("Anxious"), description := ("tends to worry"),
     traits := [("nervous")] }]

/-- A concrete people configuration for witnesses: the code's `.get` defaults,
with an 8-entry education list matching the weight vectors of
`_generate_weighted_education` (as in the shipped people_config.yaml). -/
def cfgP : PeopleConfig :=
  { locale := ("en_GB"),
    minAge := 18, maxAge := 99,
    workingAgeStart := 25, workingAgeEnd := 65, retirementAge := 65,
    minIncome := 0, unemployedMaxIncome := 15000,
    retiredMinIncome := 20000, retiredMaxIncome := 60000,
    partTimeMinIncome := 15000, partTimeMaxIncome := 40000,
    peakEarningAgeStart := 30, peakEarningAgeEnd := 55,
    peakEarningMultiplier := 6/5, normalEarningMultiplier := 1,
    reducedEarningMultiplier := 4/5,
    educationLevels := [("Less than high school"), ("High school diploma/GED"),
      ("Some college, no degree"), ("Associate degree"), ("Bachelor\x27s degree"),
      ("Master\x27s degree"), ("Professional degree"), ("Doctoral degree")],
    employmentStatus := [("Employed full-time"), ("Employed part-time"), ("Unemployed"),
      ("Retired"), ("Student"), ("Homemaker"), ("Disabled"), ("Self-employed")],
    maritalStatus := [("Single"), ("Married"), ("Divorced"), ("Widowed"),
      ("Separated"), ("Domestic partnership")],
    temperaments := temperamentsW,
    ageBasedAdjustments := [(("Anxious"), [(("<30"), 1/2), ((">60"), -(1/5))])],
    educationBasedAdjustments := [(("Analytical"), [(("has_degree"), 3/10)])],
    employmentBasedAdjustments := [(("Anxious"), [(("Unemployed"), 1/2)])],
    countryMapping := [(("en_GB"), ("United Kingdom"))],
    streetNames := [("High Street")] }

/-- C4 witness: an unemployed 40-year-old at the concrete source draws an
income inside the configured low range. -/
theorem income_c4_witness :
    cfgP.minIncome ≤ (generateIncome cfgP Rdet ("Bachelor\x27s degree") ("Unemployed")
      40 st0).1 ∧
    (generateIncome cfgP Rdet ("Bachelor\x27s degree") ("Unemployed") 40 st0).1 ≤
      cfgP.unemployedMaxIncome :=
  (income_c4 Nat Nat Rdet Rdet_wf cfgP ("Bachelor\x27s degree") ("Unemployed") 40 st0
    (by decide) (by decide) (by decide)).1 (Or.inl (by decide))

/-- C5 witness: at the concrete configuration the temperament draw succeeds
and yields a catalog temperament. -/
theorem temperament_c5_witness :
    ∃ t st1, generateTemperament cfgP Rdet 40 ("Bachelor\x27s degree")
      ("Employed full-time") st0 = Except.ok (t, st1) ∧ t ∈ cfgP.temperaments :=
  (temperament_c5 Nat Nat Rdet cfgP 40 ("Bachelor\x27s degree") ("Employed full-time")
    st0).2.2.2 (by decide)

theorem exceptBind_ok_inv {α β : Type} {e : Except String α} {f : α → Except String β}
    {b : β} (h : (e >>= f) = Except.ok b) : ∃ a, e = Except.ok a ∧ f a = Except.ok b := by
  cases e with
  | error msg => rw [exceptBind_error] at h; cases h
  | ok a => exact ⟨a, rfl, h⟩

theorem generateBusiness_street_mem (cfg : TownConfig) (R : RandOps σ) (F : FakerOps φ)
    (ent : Nat → String) (streets : List Street) (st : GState σ φ) (b : Business)
    (st1 : GState σ φ)
    (h : generateBusiness cfg R F ent streets st = Except.ok (b, st1)) :
    ∃ s0 ∈ streets, b.street = s0.name := by
  unfold generateBusiness at h
  obtain ⟨bt, _, h⟩ := exceptBind_ok_inv h
  try dsimp only at h
  obtain ⟨bn, _, h⟩ := exceptBind_ok_inv h
  try dsimp only at h
  obtain ⟨sn, hsn, h⟩ := exceptBind_ok_inv h
  try dsimp only at h
  cases h
  exact ⟨sn.1, pyChoice_mem R streets _ sn.1 sn.2 (by rw [hsn]), rfl⟩

theorem generateBusinesses_street_mem (cfg : TownConfig) (R : RandOps σ) (F : FakerOps φ)
    (ent : Nat → String) (streets : List Street) :
    ∀ (n : Nat) (st : GState σ φ) (bs : List Business) (st1 : GState σ φ),
      generateBusinesses cfg R F ent streets n st = Except.ok (bs, st1) →
      ∀ b ∈ bs, ∃ s0 ∈ streets, b.street = s0.name := by
  intro n
  induction n with
  | zero =>
    intro st bs st1 h b hb
    unfold generateBusinesses at h
    cases h
    cases hb
  | succ k ih =>
    intro st bs st1 h b hb
    unfold generateBusinesses at h
    obtain ⟨b0, hb0, h⟩ := exceptBind_ok_inv h
    try dsimp only at h
    obtain ⟨rest, hrest, h⟩ := exceptBind_ok_inv h
    try dsimp only at h
    cases h
    rcases List.mem_cons.mp hb with hhead | htail
    · rw [hhead]
      exact generateBusiness_street_mem cfg R F ent streets st b0.1 b0.2 (by rw [hb0])
    · exact ih b0.2 rest.1 rest.2 (by rw [hrest]) b htail

theorem generateLandmark_street_mem (cfg : TownConfig) (R : RandOps σ) (F : FakerOps φ)
    (ent : Nat → String) (streets : List Street) (st : GState σ φ) (l : Landmark)
    (st1 : GState σ φ)
    (h : generateLandmark cfg R F ent streets st = Except.ok (l, st1)) :
    ∃ s0 ∈ streets, l.street = s0.name := by
  unfold generateLandmark at h
  obtain ⟨lt, _, h⟩ := exceptBind_ok_inv h
  try dsimp only at h
  obtain ⟨lnm, _, h⟩ := exceptBind_ok_inv h
  try dsimp only at h
  obtain ⟨sn, hsn, h⟩ := exceptBind_ok_inv h
  try dsimp only at h
  obtain ⟨hs, _, h⟩ := exceptBind_ok_inv h
  try dsimp only at h
  cases h
  exact ⟨sn.1, pyChoice_mem R streets _ sn.1 sn.2 (by rw [hsn]), rfl⟩

theorem generateLandmarks_street_mem (cfg : TownConfig) (R : RandOps σ) (F : FakerOps φ)
    (ent : Nat → String) (streets : List Street) :
    ∀ (n : Nat) (st : GState σ φ) (ls : List Landmark) (st1 : GState σ φ),
      generateLandmarks cfg R F ent streets n st = Except.ok (ls, st1) →
      ∀ l ∈ ls, ∃ s0 ∈ streets, l.street = s0.name := by
  intro n
  induction n with
  | zero =>
    intro st ls st1 h l hl
    unfold generateLandmarks at h
    cases h
    cases hl
  | succ k ih =>
    intro st ls st1 h l hl
    unfold generateLandmarks at h
    obtain ⟨l0, hl0, h⟩ := exceptBind_ok_inv h
    try dsimp only at h
    obtain ⟨rest, hrest, h⟩ := exceptBind_ok_inv h
    try dsimp only at h
    cases h
    rcases List.mem_cons.mp hl with hhead | htail
    · rw [hhead]
      exact generateLandmark_street_mem cfg R F ent streets st l0.1 l0.2 (by rw [hl0])
    · exact ih l0.2 rest.1 rest.2 (by rw [hrest]) l htail

theorem generateSchool_street_mem (cfg : TownConfig) (R : RandOps σ) (F : FakerOps φ)
    (ent : Nat → String) (streets : List Street) (st : GState σ φ) (sc : School)
    (st1 : GState σ φ)
    (h : generateSchool cfg R F ent streets st = Except.ok (sc, st1)) :
    ∃ s0 ∈ streets, sc.street = s0.name := by
  unfold generateSchool at h
  obtain ⟨sct, _, h⟩ := exceptBind_ok_inv h
  try dsimp only at h
  obtain ⟨stn, hstn, h⟩ := exceptBind_ok_inv h
  try dsimp only at h
  cases h
  exact ⟨stn.1, pyChoice_mem R streets _ stn.1 stn.2 (by rw [hstn]), rfl⟩

theorem generateSchools_street_mem (cfg : TownConfig) (R : RandOps σ) (F : FakerOps φ)
    (ent : Nat → String) (streets : List Street) :
    ∀ (n : Nat) (st : GState σ φ) (ss : List School) (st1 : GState σ φ),
      generateSchools cfg R F ent streets n st = Except.ok (ss, st1) →
      ∀ sc ∈ ss, ∃ s0 ∈ streets, sc.street = s0.name := by
  intro n
  induction n with
  | zero =>
    intro st ss st1 h sc hsc
    unfold generateSchools at h
    cases h
    cases hsc
  | succ k ih =>
    intro st ss st1 h sc hsc
    unfold generateSchools at h
    obtain ⟨s0, hs0, h⟩ := exceptBind_ok_inv h
    try dsimp only at h
    obtain ⟨rest, hrest, h⟩ := exceptBind_ok_inv h
    try dsimp only at h
    cases h
    rcases List.mem_cons.mp hsc with hhead | htail
    · rw [hhead]
      exact generateSchool_street_mem cfg R F ent streets st s0.1 s0.2 (by rw [hs0])
    · exact ih s0.2 rest.1 rest.2 (by rw [hrest]) sc htail

theorem generateService_street_mem (cfg : TownConfig) (R : RandOps σ) (F : FakerOps φ)
    (ent : Nat → String) (townName : String) (streets : List Street) (st : GState σ φ)
    (sv : Service) (st1 : GState σ φ)
    (h : generateService cfg R F ent townName streets st = Except.ok (sv, st1)) :
    ∃ s0 ∈ streets, sv.street = s0.name := by
  unfold generateService at h
  obtain ⟨svt, _, h⟩ := exceptBind_ok_inv h
  try dsimp only at h
  obtain ⟨stn, hstn, h⟩ := exceptBind_ok_inv h
  try dsimp only at h
  cases h
  exact ⟨stn.1, pyChoice_mem R streets _ stn.1 stn.2 (by rw [hstn]), rfl⟩

theorem generateServices_street_mem (cfg : TownConfig) (R : RandOps σ) (F : FakerOps φ)
    (ent : Nat → String) (townName : String) (streets : List Street) :
    ∀ (n : Nat) (st : GState σ φ) (svs : List Service) (st1 : GState σ φ),
      generateServices cfg R F ent townName streets n st = Except.ok (svs, st1) →
      ∀ sv ∈ svs, ∃ s0 ∈ streets, sv.street = s0.name := by
  intro n
  induction n with
  | zero =>
    intro st svs st1 h sv hsv
    unfold generateServices at h
    cases h
    cases hsv
  | succ k ih =>
    intro st svs st1 h sv hsv
    unfold generateServices at h
    obtain ⟨s0, hs0, h⟩ := exceptBind_ok_inv h
    try dsimp only at h
    obtain ⟨rest, hrest, h⟩ := exceptBind_ok_inv h
    try dsimp only at h
    cases h
    rcases List.mem_cons.mp hsv with hhead | htail
    · rw [hhead]
      exact generateService_street_mem cfg R F ent townName streets st s0.1 s0.2 (by rw [hs0])
    · exact ih s0.2 rest.1 rest.2 (by rw [hrest]) sv htail

/-- C2: every business, landmark, school and service of a town returned by
`generate_town` carries a `street` equal to the `name` of some street of that
same town's street list (parks carry no street reference). -/
theorem town_street_refs_c2 (σ φ : Type) (cfg : TownConfig) (R : RandOps σ)
    (F : FakerOps φ) (ent : Nat → String) (nowIso : String)
    (townNameArg : Option String) (size : String) (st : GState σ φ) (t : Town)
    (st1 : GState σ φ)
    (h : generateTown cfg R F ent nowIso townNameArg size st = Except.ok (t, st1)) :
    (∀ b ∈ t.businesses, ∃ s0 ∈ t.streets, b.street = s0.name) ∧
    (∀ l ∈ t.landmarks, ∃ s0 ∈ t.streets, l.street = s0.name) ∧
    (∀ sc ∈ t.schools, ∃ s0 ∈ t.streets, sc.street = s0.name) ∧
    (∀ sv ∈ t.services, ∃ s0 ∈ t.streets, sv.street = s0.name) := by
  unfold generateTown at h
  cases halook : alookup cfg.townSizes size with
  | none => rw [halook] at h; cases h
  | some sc =>
    rw [halook] at h
    try dsimp only at h
    obtain ⟨streets, hstreets, h⟩ := exceptBind_ok_inv h
    try dsimp only at h
    obtain ⟨businesses, hbus, h⟩ := exceptBind_ok_inv h
    try dsimp only at h
    obtain ⟨landmarks, hlan, h⟩ := exceptBind_ok_inv h
    try dsimp only at h
    obtain ⟨parks, hpar, h⟩ := exceptBind_ok_inv h
    try dsimp only at h
    obtain ⟨schools, hsch, h⟩ := exceptBind_ok_inv h
    try dsimp only at h
    obtain ⟨services, hsvc, h⟩ := exceptBind_ok_inv h
    try dsimp only at h
    obtain ⟨climate, hcl, h⟩ := exceptBind_ok_inv h
    try dsimp only at h
    cases h
    refine ⟨?_, ?_, ?_, ?_⟩
    · exact generateBusinesses_street_mem cfg R F ent streets.1 _ _ businesses.1
        businesses.2 (by rw [hbus])
    · exact generateLandmarks_street_mem cfg R F ent streets.1 _ _ landmarks.1
        landmarks.2 (by rw [hlan])
    · exact generateSchools_street_mem cfg R F ent streets.1 _ _ schools.1
        schools.2 (by rw [hsch])
    · exact generateServices_street_mem cfg R F ent _ streets.1 _ _ services.1
        services.2 (by rw [hsvc])

/-- The single size tier of the concrete witness town configuration. -/
def scT : SizeConfig :=
  { populationRange := (10, 10), streetCountRange := (1, 1),
    businessCountRange := (1, 1), landmarkCountRange := (1, 1),
    parkCountRange := (1, 1), schoolCountRange := (1, 1),
    serviceCountRange := (1, 1) }

/-- A concrete town configuration for witnesses and counterexamples: one size
tier with all count ranges fixed at 1. -/
def cfgT : TownConfig :=
  { locale := ("en_GB"),
    townSizes := [(("medium"), scT)],
    streetPatterns := [(("en_GB"), [("Street"), ("Road")])],
    businessTypes := [(("Retail Store"), 1)],
    landmarkTypes := [("Monument")],
    parkTypes := [("Park")],
    schoolTypes := [("High School")],
    serviceTypes := [("Library")],
    countryMapping := [(("en_GB"), ("United Kingdom"))],
    nameComponents :=
      { treeNames := [("Oak")], streetPrefixes := [("Old")],
        directionalPrefixes := [("North")], ordinalPrefixes := [("First")],
        businessAdjDescriptive := [("Golden")], businessAdjLocationBased := [("Village")],
        businessAdjSizeBased := [("Little")], businessAdjSpeedBased := [("Quick")],
        businessNounsRestaurant := [("Spoon")], businessNounsRetail := [("Emporium")],
        businessNounsGas := [("Stop")], parkPrefixes := [("Riverside")],
        historicalSignificanceLevels := [("High")], facilityTypes := [("Playground")],
        climateTypes := [("Temperate")] } }

/-- One concrete uuid4 entropy stream. -/
def entA : Nat → String := fun _ => ("aaaaaaaa-0000")

/-- A different concrete uuid4 entropy stream (same seed cannot rule it out:
`random.seed` does not control `os.urandom`). -/
def entB : Nat → String := fun _ => ("bbbbbbbb-0000")

/-- C3: for every person record `generate_person` returns, the occupation is
the empty string exactly when "Employed" does not occur as a substring of the
employment status (given that Faker job titles are never empty — true of the
Faker job providers). -/
theorem occupation_c3 (σ φ : Type) (cfg : PeopleConfig) (R : RandOps σ) (F : FakerOps φ)
    (ent : Nat → String) (year : Int) (st : GState σ φ) (p : Person) (st1 : GState σ φ)
    (hjob : ∀ f, (F.job f).1 ≠ "")
    (h : generatePerson cfg R F ent year st = Except.ok (p, st1)) :
    p.occupation = "" ↔ strContains ("Employed") p.employmentStatus = false := by
  unfold generatePerson at h
  obtain ⟨g, _, h⟩ := exceptBind_ok_inv h
  try dsimp only at h
  obtain ⟨a, _, h⟩ := exceptBind_ok_inv h
  try dsimp only at h
  obtain ⟨edu, _, h⟩ := exceptBind_ok_inv h
  try dsimp only at h
  obtain ⟨emp, _, h⟩ := exceptBind_ok_inv h
  try dsimp only at h
  obtain ⟨hh, _, h⟩ := exceptBind_ok_inv h
  try dsimp only at h
  obtain ⟨mar, _, h⟩ := exceptBind_ok_inv h
  try dsimp only at h
  obtain ⟨addr, _, h⟩ := exceptBind_ok_inv h
  try dsimp only at h
  obtain ⟨temp, _, h⟩ := exceptBind_ok_inv h
  try dsimp only at h
  simp only [Except.ok.injEq, Prod.mk.injEq] at h
  obtain ⟨hp, hs⟩ := h
  subst hp
  cases hemp : strContains ("Employed") emp.1 with
  | false => simp [hemp]
  | true =>
    simp [hemp, onF]
    exact hjob _

theorem ageWeights_pos (cfg : PeopleConfig) : ∀ w ∈ ageWeights cfg, 0 < w := by
  intro w hw
  unfold ageWeights at hw
  obtain ⟨age, _, ht⟩ := List.mem_map.mp hw
  rw [← ht]
  split_ifs <;> norm_num

theorem ageList_ne_nil (cfg : PeopleConfig) (h : cfg.minAge ≤ cfg.maxAge) :
    ageList cfg ≠ [] := by
  have : 0 < (ageList cfg).length := by
    unfold ageList rangeInt
    rw [List.length_map, List.length_range]
    omega
  exact List.ne_nil_of_length_pos this

theorem generateWeightedAge_ok (cfg : PeopleConfig) (R : RandOps σ) (st : GState σ φ)
    (hage : cfg.minAge ≤ cfg.maxAge) :
    ∃ v, generateWeightedAge cfg R st =
      Except.ok (v, { st with r := (R.randfloat st.r).2 }) ∧ v ∈ ageList cfg := by
  have hne := ageList_ne_nil cfg hage
  have hwne : ageWeights cfg ≠ [] := by
    intro hc
    exact hne (List.map_eq_nil_iff.mp hc)
  exact pyChoicesPop_ok R (ageList cfg) (ageWeights cfg) st (List.length_map _ _) hne
    (List.sum_pos _ (ageWeights_pos cfg) hwne)

theorem generateWeightedEducation_ok (cfg : PeopleConfig) (R : RandOps σ) (age : Int)
    (st : GState σ φ) (hlen : cfg.educationLevels.length = 8) :
    ∃ v, generateWeightedEducation cfg R age st =
      Except.ok (v, { st with r := (R.randfloat st.r).2 }) := by
  unfold generateWeightedEducation
  split_ifs
  · obtain ⟨v, hv, _⟩ := pyChoicesPop_ok R (cfg.educationLevels.take 5)
      [15, 30, 25, 15, 15] st (by simp [List.length_take, hlen])
      (by apply List.ne_nil_of_length_pos; simp [List.length_take, hlen])
      (by norm_num)
    exact ⟨v, hv⟩
  · obtain ⟨v, hv, _⟩ := pyChoicesPop_ok R cfg.educationLevels
      [5, 20, 15, 15, 25, 15, 3, 2] st (by simp [hlen])
      (by apply List.ne_nil_of_length_pos; omega) (by norm_num)
    exact ⟨v, hv⟩
  · obtain ⟨v, hv, _⟩ := pyChoicesPop_ok R cfg.educationLevels
      [10, 25, 20, 15, 20, 8, 1, 1] st (by simp [hlen])
      (by apply List.ne_nil_of_length_pos; omega) (by norm_num)
    exact ⟨v, hv⟩

theorem generateWeightedEmployment_ok (cfg : PeopleConfig) (R : RandOps σ) (age : Int)
    (st : GState σ φ) (hlen : cfg.employmentStatus.length = 8) :
    ∃ v, generateWeightedEmployment cfg R age st =
      Except.ok (v, { st with r := (R.randfloat st.r).2 }) := by
  unfold generateWeightedEmployment
  split_ifs
  · obtain ⟨v, hv, _⟩ := pyChoicesPop_ok R cfg.employmentStatus
      [40, 30, 15, 0, 10, 3, 1, 1] st (by simp [hlen])
      (by apply List.ne_nil_of_length_pos; omega) (by norm_num)
    exact ⟨v, hv⟩
  · obtain ⟨v, hv, _⟩ := pyChoicesPop_ok R cfg.employmentStatus
      [60, 15, 8, 2, 2, 5, 3, 5] st (by simp [hlen])
      (by apply List.ne_nil_of_length_pos; omega) (by norm_num)
    exact ⟨v, hv⟩
  · obtain ⟨v, hv, _⟩ := pyChoicesPop_ok R cfg.employmentStatus
      [10, 10, 2, 70, 0, 3, 3, 2] st (by simp [hlen])
      (by apply List.ne_nil_of_length_pos; omega) (by norm_num)
    exact ⟨v, hv⟩

theorem generateWeightedMaritalStatus_ok (cfg : PeopleConfig) (R : RandOps σ) (age : Int)
    (st : GState σ φ) (hlen : cfg.maritalStatus.length = 6) :
    ∃ v, generateWeightedMaritalStatus cfg R age st =
      Except.ok (v, { st with r := (R.randfloat st.r).2 }) := by
  unfold generateWeightedMaritalStatus
  split_ifs
  · obtain ⟨v, hv, _⟩ := pyChoicesPop_ok R cfg.maritalStatus [70, 25, 2, 1, 1, 1] st
      (by simp [hlen]) (by apply List.ne_nil_of_length_pos; omega) (by norm_num)
    exact ⟨v, hv⟩
  · obtain ⟨v, hv, _⟩ := pyChoicesPop_ok R cfg.maritalStatus [35, 50, 8, 2, 3, 2] st
      (by simp [hlen]) (by apply List.ne_nil_of_length_pos; omega) (by norm_num)
    exact ⟨v, hv⟩
  · obtain ⟨v, hv, _⟩ := pyChoicesPop_ok R cfg.maritalStatus [20, 60, 12, 3, 3, 2] st
      (by simp [hlen]) (by apply List.ne_nil_of_length_pos; omega) (by norm_num)
    exact ⟨v, hv⟩
  · obtain ⟨v, hv, _⟩ := pyChoicesPop_ok R cfg.maritalStatus [15, 50, 10, 20, 3, 2] st
      (by simp [hlen]) (by apply List.ne_nil_of_length_pos; omega) (by norm_num)
    exact ⟨v, hv⟩

theorem generateHouseholdSize_ok (R : RandOps σ) (age : Int) (st : GState σ φ) :
    ∃ v, generateHouseholdSize R age st =
      Except.ok (v, { st with r := (R.randfloat st.r).2 }) := by
  unfold generateHouseholdSize
  split_ifs
  · obtain ⟨v, hv, _⟩ := pyChoicesPop_ok R [(1 : Int), 2, 3, 4] [40, 35, 20, 5] st
      (by simp) (by simp) (by norm_num)
    exact ⟨v, hv⟩
  · obtain ⟨v, hv, _⟩ := pyChoicesPop_ok R [(1 : Int), 2, 3, 4, 5] [20, 30, 30, 15, 5] st
      (by simp) (by simp) (by norm_num)
    exact ⟨v, hv⟩
  · obtain ⟨v, hv, _⟩ := pyChoicesPop_ok R [(1 : Int), 2, 3] [30, 50, 20] st
      (by simp) (by simp) (by norm_num)
    exact ⟨v, hv⟩

theorem temperamentWeights_pos (cfg : PeopleConfig) (age : Int)
    (education employment : String) :
    ∀ w ∈ temperamentWeights cfg age education employment, 0 < w := by
  intro w hw
  unfold temperamentWeights at hw
  obtain ⟨t, _, ht⟩ := List.mem_map.mp hw
  rw [← ht]
  exact lt_of_lt_of_le (by norm_num) (le_max_left _ _)

theorem generateTemperament_ok (cfg : PeopleConfig) (R : RandOps σ) (age : Int)
    (education employment : String) (st : GState σ φ) (hne : cfg.temperaments ≠ []) :
    ∃ t, generateTemperament cfg R age education employment st =
      Except.ok (t, { st with r := (R.randfloat st.r).2 }) ∧ t ∈ cfg.temperaments := by
  have hwne : temperamentWeights cfg age education employment ≠ [] := by
    intro hc
    exact hne (List.map_eq_nil_iff.mp hc)
  exact pyChoicesPop_ok R cfg.temperaments _ st (List.length_map _ _) hne
    (List.sum_pos _ (temperamentWeights_pos cfg age education employment) hwne)

theorem generateAddressWithTownStreets_ok (cfg : PeopleConfig) (R : RandOps σ)
    (F : FakerOps φ) (st : GState σ φ) (hWF : RandWF R) :
    ∃ v st1, generateAddressWithTownStreets cfg R F st = Except.ok (v, st1) := by
  unfold generateAddressWithTownStreets
  by_cases hc : cfg.streetNames.isEmpty
  · rw [if_pos hc]
    exact ⟨_, _, rfl⟩
  · rw [if_neg hc]
    have hne : cfg.streetNames ≠ [] := by
      intro hcontra
      rw [hcontra] at hc
      exact hc rfl
    obtain ⟨streetName, hs, _⟩ := pyChoice_ok R hWF cfg.streetNames st hne
    rw [hs]
    simp only [exceptBind_ok]
    exact ⟨_, _, rfl⟩

theorem succ_bind {α β : Type} {e : Except String α} {f : α → Except String β}
    (he : ∃ v, e = Except.ok v) (hf : ∀ a, ∃ w, f a = Except.ok w) :
    ∃ w, (e >>= f) = Except.ok w := by
  obtain ⟨v, hv⟩ := he
  rw [hv, exceptBind_ok]
  exact hf v

theorem generatePerson_ok (σ φ : Type) (cfg : PeopleConfig) (R : RandOps σ)
    (F : FakerOps φ) (ent : Nat → String) (year : Int) (st : GState σ φ)
    (hWF : RandWF R) (hedu : cfg.educationLevels.length = 8)
    (hempl : cfg.employmentStatus.length = 8) (hmar : cfg.maritalStatus.length = 6)
    (htemp : cfg.temperaments ≠ []) (hage : cfg.minAge ≤ cfg.maxAge) :
    ∃ ps, generatePerson cfg R F ent year st = Except.ok ps := by
  unfold generatePerson
  apply succ_bind
  · obtain ⟨g, hg, _⟩ := pyChoice_ok R hWF [("Male" : String), ("Female")] st (by simp)
    exact ⟨_, hg⟩
  intro g
  dsimp only
  apply succ_bind
  · obtain ⟨a, ha, _⟩ := generateWeightedAge_ok cfg R _ hage
    exact ⟨_, ha⟩
  intro a
  dsimp only
  apply succ_bind
  · obtain ⟨edu, he⟩ := generateWeightedEducation_ok cfg R a.1 _ hedu
    exact ⟨_, he⟩
  intro edu
  dsimp only
  apply succ_bind
  · obtain ⟨emp, he⟩ := generateWeightedEmployment_ok cfg R a.1 _ hempl
    exact ⟨_, he⟩
  intro emp
  dsimp only
  apply succ_bind
  · obtain ⟨hh, he⟩ := generateHouseholdSize_ok R a.1 _
    exact ⟨_, he⟩
  intro hh
  dsimp only
  apply succ_bind
  · obtain ⟨mar, he⟩ := generateWeightedMaritalStatus_ok cfg R a.1 _ hmar
    exact ⟨_, he⟩
  intro mar
  dsimp only
  apply succ_bind
  · obtain ⟨addr, st9, he⟩ := generateAddressWithTownStreets_ok cfg R F _ hWF
    exact ⟨_, he⟩
  intro addr
  dsimp only
  apply succ_bind
  · obtain ⟨temp, he, _⟩ := generateTemperament_ok cfg R a.1 edu.1 emp.1 _ htemp
    exact ⟨_, he⟩
  intro temp
  dsimp only
  exact ⟨_, rfl⟩

theorem generatePersonList_ok (σ φ : Type) (cfg : PeopleConfig) (R : RandOps σ)
    (F : FakerOps φ) (ent : Nat → String) (year : Int) (hWF : RandWF R)
    (hedu : cfg.educationLevels.length = 8) (hempl : cfg.employmentStatus.length = 8)
    (hmar : cfg.maritalStatus.length = 6) (htemp : cfg.temperaments ≠ [])
    (hage : cfg.minAge ≤ cfg.maxAge) :
    ∀ (n : Nat) (st : GState σ φ), ∃ ps st1,
      generatePersonList cfg R F ent year n st = Except.ok (ps, st1) ∧
      ps.length = n := by
  intro n
  induction n with
  | zero => exact fun st => ⟨[], st, rfl, rfl⟩
  | succ k ih =>
    intro st
    obtain ⟨p, hp⟩ := generatePerson_ok σ φ cfg R F ent year st hWF hedu hempl hmar
      htemp hage
    obtain ⟨ps, st1, hps, hlen⟩ := ih p.2
    refine ⟨p.1 :: ps, st1, ?_, by simp [hlen]⟩
    unfold generatePersonList
    rw [hp, exceptBind_ok]
    try dsimp only
    rw [hps, exceptBind_ok]

/-- C8: `generate_dataset` rejects zero, negative and non-integer `num_people`
with the error the spec names InvalidArgumentError — for every random and
Faker source and state, i.e. before any person is generated — and for every
positive integer N it returns a list of exactly N person records. -/
theorem dataset_c8 (σ φ : Type) (cfg : PeopleConfig) (R : RandOps σ) (F : FakerOps φ)
    (ent : Nat → String) (year : Int) (st : GState σ φ) (hWF : RandWF R)
    (hedu : cfg.educationLevels.length = 8) (hempl : cfg.employmentStatus.length = 8)
    (hmar : cfg.maritalStatus.length = 6) (htemp : cfg.temperaments ≠ [])
    (hage : cfg.minAge ≤ cfg.maxAge) :
    (∀ n : Int, n ≤ 0 → generateDataset cfg R F ent year (PyNum.int n) st =
      Except.error ("ValueError: num_people must be a positive integer")) ∧
    generateDataset cfg R F ent year PyNum.nonInt st =
      Except.error ("ValueError: num_people must be a positive integer") ∧
    (∀ n : Int, 0 < n → ∃ ps st1,
      generateDataset cfg R F ent year (PyNum.int n) st = Except.ok (ps, st1) ∧
      (ps.length : Int) = n) := by
  refine ⟨?_, rfl, ?_⟩
  · intro n hn
    unfold generateDataset
    dsimp only
    rw [if_pos hn]
  · intro n hn
    unfold generateDataset
    dsimp only
    rw [if_neg (not_le.mpr hn)]
    obtain ⟨ps, st1, hps, hlen⟩ := generatePersonList_ok σ φ cfg R F ent year hWF hedu
      hempl hmar htemp hage n.toNat st
    exact ⟨ps, st1, hps, by rw [hlen]; omega⟩

/-- C8 witness: at the concrete configuration and sources, 0, -1 and a
non-integer are rejected and N = 5 yields exactly 5 records. -/
theorem dataset_c8_witness :
    generateDataset cfgP Rdet Fdet entA 2026 (PyNum.int 0) st0 =
      Except.error ("ValueError: num_people must be a positive integer") ∧
    generateDataset cfgP Rdet Fdet entA 2026 (PyNum.int (-1)) st0 =
      Except.error ("ValueError: num_people must be a positive integer") ∧
    generateDataset cfgP Rdet Fdet entA 2026 PyNum.nonInt st0 =
      Except.error ("ValueError: num_people must be a positive integer") ∧
    ∃ ps st1, generateDataset cfgP Rdet Fdet entA 2026 (PyNum.int 5) st0 =
      Except.ok (ps, st1) ∧ (ps.length : Int) = 5 := by
  have h := dataset_c8 Nat Nat cfgP Rdet Fdet entA 2026 st0 Rdet_wf (by decide)
    (by decide) (by decide) (by decide) (by decide)
  exact ⟨h.1 0 (by norm_num), h.1 (-1) (by norm_num), h.2.1, h.2.2 5 (by norm_num)⟩

/-- C3 witness: a concrete successful `generate_person` run satisfies the
occupation/employment-status equivalence. -/
theorem occupation_c3_witness :
    ∃ p st1, generatePerson cfgP Rdet Fdet entA 2026 st0 = Except.ok (p, st1) ∧
      (p.occupation = "" ↔ strContains ("Employed") p.employmentStatus = false) := by
  obtain ⟨ps, hps⟩ := generatePerson_ok Nat Nat cfgP Rdet Fdet entA 2026 st0 Rdet_wf
    (by decide) (by decide) (by decide) (by decide) (by decide)
  exact ⟨ps.1, ps.2, by rw [hps],
    occupation_c3 Nat Nat cfgP Rdet Fdet entA 2026 st0 ps.1 ps.2
      (fun f => by show ("Engineer" : String) ≠ ""; decide) (by rw [hps])⟩

/-- The 14 keys of the `article` dict, in source order. -/
def articleColumns : List String :=
  [("article_id"), ("title"), ("slug"), ("body"), ("summary"), ("publication_date"),
   ("last_updated"), ("author"), ("author_persona"), ("author_style"), ("category"),
   ("status"), ("story_status"), ("seriousness")]

theorem colIdx_lt (c : String) : ∀ cols : List String, ∀ i, colIdx cols c = some i →
    i < cols.length := by
  intro cols
  induction cols with
  | nil => intro i h; cases h
  | cons c0 rest ih =>
    intro i h
    unfold colIdx at h
    by_cases hc : c0 = c
    · rw [if_pos hc] at h
      cases h
      simp
    · rw [if_neg hc] at h
      cases hrest : colIdx rest c with
      | none => rw [hrest] at h; cases h
      | some j =>
        rw [hrest] at h
        cases h
        have := ih j hrest
        simp
        omega

theorem colIdx_get (c : String) : ∀ cols : List String, ∀ i, colIdx cols c = some i →
    ∀ h : i < cols.length, cols.get ⟨i, h⟩ = c := by
  intro cols
  induction cols with
  | nil => intro i h; cases h
  | cons c0 rest ih =>
    intro i h hlt
    unfold colIdx at h
    by_cases hc : c0 = c
    · rw [if_pos hc] at h
      cases h
      exact hc
    · rw [if_neg hc] at h
      cases hrest : colIdx rest c with
      | none => rw [hrest] at h; cases h
      | some j =>
        rw [hrest] at h
        cases h
        exact ih j hrest _

theorem colIdx_of_mem (c : String) : ∀ cols : List String, c ∈ cols →
    ∃ i, colIdx cols c = some i := by
  intro cols
  induction cols with
  | nil => intro h; cases h
  | cons c0 rest ih =>
    intro h
    unfold colIdx
    by_cases hc : c0 = c
    · exact ⟨0, by rw [if_pos hc]⟩
    · rcases List.mem_cons.mp h with heq | hmem
      · exact absurd heq.symm hc
      · obtain ⟨i, hi⟩ := ih hmem
        exact ⟨i + 1, by rw [if_neg hc, hi]; rfl⟩

theorem colIdx_none_of_not_contains (c : String) : ∀ cols : List String,
    cols.contains c = false → colIdx cols c = none := by
  intro cols
  induction cols with
  | nil => intro _; rfl
  | cons c0 rest ih =>
    intro h
    simp only [List.contains_cons, Bool.or_eq_false_iff] at h
    unfold colIdx
    rw [if_neg (by intro hc; rw [hc] at h; simp at h)]
    rw [ih h.2]
    rfl

theorem colIdx_append_left (c : String) (a b : List String) (i : Nat)
    (h : colIdx a c = some i) : colIdx (a ++ b) c = some i := by
  induction a generalizing i with
  | nil => cases h
  | cons c0 rest ih =>
    rw [List.cons_append] at *
    simp only [colIdx] at h ⊢
    by_cases hc : c0 = c
    · rw [if_pos hc] at h ⊢
      exact h
    · rw [if_neg hc] at h ⊢
      cases hrest : colIdx rest c with
      | none => rw [hrest] at h; cases h
      | some j =>
        rw [hrest] at h
        cases h
        rw [ih j hrest]
        rfl

theorem colIdx_append_right (c : String) (a b : List String)
    (h : colIdx a c = none) : colIdx (a ++ b) c = (colIdx b c).map (fun i => i + a.length) := by
  induction a with
  | nil => simp
  | cons c0 rest ih =>
    rw [List.cons_append] at *
    simp only [colIdx] at h ⊢
    by_cases hc : c0 = c
    · rw [if_pos hc] at h; cases h
    · rw [if_neg hc] at h ⊢
      cases hrest : colIdx rest c with
      | none =>
        rw [ih hrest]
        cases colIdx b c <;> simp
        omega
      | some j => rw [hrest] at h; cases h

theorem rowCell_map_self (cols : List String) (g : String → String) (c : String)
    (hc : c ∈ cols) : rowCell cols (cols.map g) c = g c := by
  obtain ⟨i, hi⟩ := colIdx_of_mem c cols hc
  have hlt := colIdx_lt c cols i hi
  unfold rowCell
  rw [hi]
  dsimp only
  have : (cols.map g).getD i "" = g (cols.get ⟨i, hlt⟩) := by
    rw [List.getD_eq_get? , List.get?_map, List.get?_eq_get hlt]
    rfl
  rw [this, colIdx_get c cols i hi hlt]

theorem getD_map_of_lt {α β : Type} (g : α → β) (l : List α) (i : Nat) (d : β) (d' : α)
    (h : i < l.length) : (l.map g).getD i d = g (l.getD i d') := by
  induction l generalizing i with
  | nil => simp at h
  | cons x rest ih =>
    cases i with
    | zero => rfl
    | succ k => exact ih k (by simpa using h)

theorem replicate_getD (m j : Nat) : (List.replicate m ("" : String)).getD j "" = "" := by
  induction m generalizing j with
  | zero => cases j <;> rfl
  | succ k ih =>
    cases j with
    | zero => rfl
    | succ j2 => exact ih j2

theorem padRow_length (n : Nat) (r : List String) : (padRow n r).length = n := by
  unfold padRow
  simp [List.length_take]
  omega

theorem contains_true_mem (c : String) (l : List String) (h : l.contains c = true) :
    c ∈ l := by
  induction l with
  | nil => cases h
  | cons x rest ih =>
    simp only [List.contains_cons, Bool.or_eq_true, beq_iff_eq] at h
    rcases h with h | h
    · exact h ▸ List.mem_cons_self x rest
    · exact List.mem_cons_of_mem x (ih h)

theorem rowCell_fill (cols missing : List String) (r : List String) (c : String)
    (hr : r.length = cols.length) :
    rowCell (cols ++ missing) (r ++ List.replicate missing.length "") c =
      if cols.contains c then rowCell cols r c else "" := by
  cases hc : cols.contains c with
  | true =>
    rw [if_pos rfl]
    obtain ⟨i, hi⟩ := colIdx_of_mem c cols (contains_true_mem c cols hc)
    have hlt := colIdx_lt c cols i hi
    unfold rowCell
    rw [hi, colIdx_append_left c cols missing i hi]
    dsimp only
    rw [List.getD_append _ _ _ _ (by omega)]
  | false =>
    rw [if_neg (by simp)]
    have hnone := colIdx_none_of_not_contains c cols hc
    unfold rowCell
    rw [colIdx_append_right c cols missing hnone]
    cases hm : colIdx missing c with
    | none => rfl
    | some j =>
      dsimp only [Option.map]
      rw [List.getD_append_right _ _ _ _ (by omega)]
      rw [show j + cols.length - r.length = j by omega]
      exact replicate_getD missing.length j


/-- C6 (amended): when the stored article file's column set differs from
`expected_columns`, the write backs the old file up, empty-fills the missing
columns, reorders AND restricts the columns to the canonical schema (so
columns outside the schema survive only in the backup), and the new file holds
every prior row's data on the canonical columns followed by the new record. -/
theorem store_migrate_c6 (f adf : DF) (hne : f.cols ≠ [])
    (hdiff : sameColSet f.cols expectedColumns = false)
    (hadf : adf.cols = articleColumns) :
    (storeWrite (some f) adf).path = WritePath.migrate ∧
    (storeWrite (some f) adf).backup = some f ∧
    (storeWrite (some f) adf).file.cols = expectedColumns ∧
    (storeWrite (some f) adf).file.rows.length = f.rows.length + adf.rows.length ∧
    (∀ i, i < f.rows.length → ∀ c ∈ expectedColumns,
      rowCell expectedColumns ((storeWrite (some f) adf).file.rows.getD i []) c =
        if f.cols.contains c then
          rowCell f.cols (padRow f.cols.length (f.rows.getD i [])) c
        else "") ∧
    (∀ j, j < adf.rows.length → ∀ c ∈ expectedColumns,
      rowCell expectedColumns
          ((storeWrite (some f) adf).file.rows.getD (f.rows.length + j) []) c =
        rowCell adf.cols (adf.rows.getD j []) c) := by
  have hextra : adf.cols.filter (fun c => !(expectedColumns.contains c)) = [] := by
    rw [hadf]
    decide
  have hW : storeWrite (some f) adf =
      { file := dfConcat (selectCols (addMissing (readDf f) expectedColumns)
          expectedColumns) adf,
        backup := some f, path := WritePath.migrate } := by
    unfold storeWrite
    dsimp only
    rw [if_neg (by simp [List.isEmpty_iff, hne])]
    dsimp only [readDf]
    rw [if_neg (by simp [hdiff])]
  refine ⟨by rw [hW], by rw [hW], ?_, ?_, ?_, ?_⟩
  · rw [hW]
    dsimp only [dfConcat, selectCols]
    rw [hextra, List.append_nil]
  · rw [hW]
    dsimp only [dfConcat, selectCols, addMissing, readDf]
    simp only [List.length_append, List.length_map]
  · intro i hi c hc
    rw [hW]
    dsimp only [dfConcat, selectCols, addMissing, readDf]
    rw [List.getD_append _ _ _ _ (by simp only [List.length_map]; exact hi)]
    rw [getD_map_of_lt _ _ i [] [] (by simp only [List.length_map]; exact hi)]
    rw [getD_map_of_lt _ _ i [] [] (by simp only [List.length_map]; exact hi)]
    rw [getD_map_of_lt _ _ i [] [] (by simp only [List.length_map]; exact hi)]
    rw [getD_map_of_lt _ _ i [] [] hi]
    try dsimp only
    rw [hextra]
    simp only [List.length_nil, List.replicate_zero, List.append_nil]
    rw [rowCell_map_self _ _ c hc]
    exact rowCell_fill f.cols _ (padRow f.cols.length (f.rows.getD i [])) c
      (padRow_length f.cols.length _)
  · intro j hj c hc
    rw [hW]
    dsimp only [dfConcat, selectCols, addMissing, readDf]
    rw [List.getD_append_right _ _ _ _ (by simp only [List.length_map]; omega)]
    simp only [List.length_map, Nat.add_sub_cancel_left]
    rw [getD_map_of_lt _ _ j [] [] hj]
    try dsimp only
    rw [hextra]
    simp only [List.length_nil, List.replicate_zero, List.append_nil]
    rw [rowCell_map_self _ _ c hc]

/-- A concrete article record for store witnesses. -/
def articleW : List (String × String) :=
  mkArticleRecord ("ART-20260101000000") ("Hello, World.") ("Body text") ("Summary")
    ("2026-01-01") ("2026-01-01 00:00:00") ("Alice") ("calm") ("dry") ("Politics")
    ("balanced")

/-- The one-row frame of the concrete article record. -/
def adfW : DF := articleDf articleW

/-- The store file after a first write to an absent store. -/
def fW : DF := (storeWrite none adfW).file

/-- C6 witness: the freshly-created 14-column store differs from the expected
schema, so the next write takes the migrate path, backs the old file up and
normalizes the columns. -/
theorem store_migrate_c6_witness :
    (storeWrite (some fW) adfW).path = WritePath.migrate ∧
    (storeWrite (some fW) adfW).backup = some fW ∧
    (storeWrite (some fW) adfW).file.cols = expectedColumns := by
  have h := store_migrate_c6 fW adfW (by decide) (by decide) (by decide)
  exact ⟨h.1, h.2.1, h.2.2.1⟩

/-- A stored article file carrying a column outside the expected schema, with
a value "X" in it. -/
def dfExtra : DF :=
  { cols := expectedColumns ++ [("extra")],
    rows := [List.replicate 16 ("v") ++ [("X")]] }

/-- C6 counterexample to the claim as stated: on a store whose column set
differs by an EXTRA column, the migrate path does not keep every prior row
unchanged — the extra column's data is dropped from the resulting file (it
survives only in the .bak backup). -/
theorem store_migrate_c6_counterexample :
    (storeWrite (some dfExtra) adfW).path = WritePath.migrate ∧
    (storeWrite (some dfExtra) adfW).file.rows.getD 0 [] ≠ dfExtra.rows.getD 0 [] ∧
    ((storeWrite (some dfExtra) adfW).file.rows.getD 0 []).contains ("X") = false ∧
    (dfExtra.rows.getD 0 []).contains ("X") = true := by decide

/-- C10 (amended): the record `create_new_story` writes has exactly the
expected schema's columns minus `town_data` and `people_data`, so the store a
first write creates differs from the expected schema and the first subsequent
append takes the backup-and-migrate path; that migration normalizes the
stored columns to the expected schema, after which appends take the
plain-append path (not the migrate path). -/
theorem article_store_c10 (a t b s pd lu au ap asty cat se : String) :
    (mkArticleRecord a t b s pd lu au ap asty cat se).map Prod.fst = articleColumns ∧
    articleColumns = expectedColumns.filter
      (fun c => !(c == ("town_data")) && !(c == ("people_data"))) ∧
    (storeWrite none (articleDf (mkArticleRecord a t b s pd lu au ap asty cat se))).path =
      WritePath.createNew ∧
    (storeWrite none
      (articleDf (mkArticleRecord a t b s pd lu au ap asty cat se))).file.cols =
      articleColumns ∧
    sameColSet articleColumns expectedColumns = false ∧
    (∀ g : DF, g.cols = articleColumns → ∀ adf2 : DF, adf2.cols = articleColumns →
      (storeWrite (some g) adf2).path = WritePath.migrate ∧
      (storeWrite (some g) adf2).file.cols = expectedColumns) ∧
    (∀ g : DF, sameColSet g.cols expectedColumns = true → g.cols ≠ [] →
      ∀ adf2 : DF, (storeWrite (some g) adf2).path = WritePath.appendPlain) := by
  refine ⟨rfl, by decide, rfl, rfl, by decide, ?_, ?_⟩
  · intro g hg adf2 h2
    have h := store_migrate_c6 g adf2 (by rw [hg]; decide) (by rw [hg]; decide) h2
    exact ⟨h.1, h.2.2.1⟩
  · intro g hs hgne adf2
    unfold storeWrite
    dsimp only
    rw [if_neg (by simp [List.isEmpty_iff, hgne])]
    dsimp only [readDf]
    rw [if_pos hs]

/-- The three-write trace refuting the original C10: first write creates the
14-column store, the second write migrates, but the third write takes the
plain-append path — "every subsequent append migrates" is false. -/
def w1R : WriteResult := storeWrite none adfW

/-- Second write of the trace. -/
def w2R : WriteResult := storeWrite (some w1R.file) adfW

/-- Third write of the trace. -/
def w3R : WriteResult := storeWrite (some w2R.file) adfW

/-- C10 counterexample: after the first migration the stored column set
matches the expected schema, so the third write appends in place instead of
migrating. -/
theorem article_store_c10_counterexample :
    w1R.path = WritePath.createNew ∧ w2R.path = WritePath.migrate ∧
    w3R.path = WritePath.appendPlain ∧ w3R.path ≠ WritePath.migrate := by decide

/-- C10 witness: the migrate branch of the amended claim at the concrete
first-write store. -/
theorem article_store_c10_witness :
    (storeWrite (some fW) adfW).path = WritePath.migrate ∧
    (storeWrite (some fW) adfW).file.cols = expectedColumns :=
  (article_store_c10 ("ART-20260101000000") ("Hello, World.") ("Body text") ("Summary")
    ("2026-01-01") ("2026-01-01 00:00:00") ("Alice") ("calm") ("dry") ("Politics")
    ("balanced")).2.2.2.2.2.1 fW rfl adfW rfl

/-- Non-emptiness conditions on the town configuration under which
`generate_town` cannot fail (all catalogs and name-component lists the
generators may draw from are populated, and the business weights have a
positive total). -/
structure TownCfgOK (cfg : TownConfig) : Prop where
  patterns : ∃ ps, alookup cfg.streetPatterns cfg.locale = some ps ∧ ps ≠ []
  tree : cfg.nameComponents.treeNames ≠ []
  spre : cfg.nameComponents.streetPrefixes ≠ []
  dpre : cfg.nameComponents.directionalPrefixes ≠ []
  opre : cfg.nameComponents.ordinalPrefixes ≠ []
  adjDesc : cfg.nameComponents.businessAdjDescriptive ≠ []
  adjLoc : cfg.nameComponents.businessAdjLocationBased ≠ []
  adjSize : cfg.nameComponents.businessAdjSizeBased ≠ []
  adjSpeed : cfg.nameComponents.businessAdjSpeedBased ≠ []
  nounsRest : cfg.nameComponents.businessNounsRestaurant ≠ []
  nounsRetail : cfg.nameComponents.businessNounsRetail ≠ []
  nounsGas : cfg.nameComponents.businessNounsGas ≠ []
  parkPre : cfg.nameComponents.parkPrefixes ≠ []
  hist : cfg.nameComponents.historicalSignificanceLevels ≠ []
  fac : cfg.nameComponents.facilityTypes ≠ []
  climate : cfg.nameComponents.climateTypes ≠ []
  btypes : cfg.businessTypes ≠ []
  btypesSum : 0 < (cfg.businessTypes.map Prod.snd).sum
  ltypes : cfg.landmarkTypes ≠ []
  ptypes : cfg.parkTypes ≠ []
  sctypes : cfg.schoolTypes ≠ []
  svtypes : cfg.serviceTypes ≠ []

theorem uniformChoicesK_ok (R : RandOps σ) (hWF : RandWF R) (xs : List α)
    (hne : xs ≠ []) :
    ∀ (k : Nat) (st : GState σ φ), ∃ v, uniformChoicesK R xs k st = Except.ok v := by
  intro k
  induction k with
  | zero => exact fun st => ⟨_, rfl⟩
  | succ m ih =>
    intro st
    unfold uniformChoicesK
    obtain ⟨hr0, hr1⟩ := hWF.2.1 st.r
    have hn : 0 < xs.length := List.length_pos.mpr hne
    have hmul : (R.randfloat st.r).1 * (xs.length : ℚ) < (xs.length : ℚ) := by
      calc (R.randfloat st.r).1 * (xs.length : ℚ) < 1 * (xs.length : ℚ) := by
            apply mul_lt_mul_of_pos_right hr1
            exact_mod_cast hn
        _ = (xs.length : ℚ) := one_mul _
    have hflt : ((R.randfloat st.r).1 * (xs.length : ℚ)).floor < (xs.length : Int) := by
      by_contra hcontra
      push_neg at hcontra
      have := Rat.le_floor.mp hcontra
      push_cast at this
      exact absurd hmul (not_lt.mpr this)
    have hfge : (0 : Int) ≤ ((R.randfloat st.r).1 * (xs.length : ℚ)).floor := by
      apply Rat.le_floor.mpr
      push_cast
      exact mul_nonneg hr0 (by positivity)
    have hidx : ((R.randfloat st.r).1 * (xs.length : ℚ)).floor.toNat < xs.length := by
      omega
    dsimp only [onR]
    rw [List.get?_eq_get hidx]
    dsimp only
    obtain ⟨v, hv⟩ := ih { st with r := (R.randfloat st.r).2 }
    rw [hv, exceptBind_ok]
    exact ⟨_, rfl⟩

theorem pyChoice_succeeds (R : RandOps σ) (hWF : RandWF R) (xs : List α)
    (hne : xs ≠ []) (st : GState σ φ) : ∃ v, pyChoice R xs st = Except.ok v :=
  let ⟨_, hx, _⟩ := pyChoice_ok R hWF xs st hne
  ⟨_, hx⟩

theorem generateStreetName_ok (cfg : TownConfig) (R : RandOps σ) (F : FakerOps φ)
    (hWF : RandWF R) (hok : TownCfgOK cfg) (st : GState σ φ) :
    ∃ v, generateStreetName cfg R F st = Except.ok v := by
  obtain ⟨ps, hps, hpne⟩ := hok.patterns
  unfold generateStreetName
  rw [hps]
  dsimp only
  obtain ⟨m, hm, hmem⟩ := pyChoice_ok R hWF _ st (List.cons_ne_nil _ _)
  rw [hm, exceptBind_ok]
  dsimp only
  simp only [List.mem_cons, List.not_mem_nil, or_false] at hmem
  rcases hmem with h | h | h | h | h | h <;> rw [h] <;> dsimp only
  · exact succ_bind (pyChoice_succeeds R hWF ps hpne _) (fun p => ⟨_, rfl⟩)
  · exact succ_bind (pyChoice_succeeds R hWF ps hpne _) (fun p => ⟨_, rfl⟩)
  · exact succ_bind (pyChoice_succeeds R hWF _ hok.tree _) (fun t =>
      succ_bind (pyChoice_succeeds R hWF ps hpne _) (fun p => ⟨_, rfl⟩))
  · exact succ_bind (pyChoice_succeeds R hWF _ hok.spre _) (fun t =>
      succ_bind (pyChoice_succeeds R hWF ps hpne _) (fun p => ⟨_, rfl⟩))
  · exact succ_bind (pyChoice_succeeds R hWF _ hok.dpre _) (fun t =>
      succ_bind (pyChoice_succeeds R hWF ps hpne _) (fun p => ⟨_, rfl⟩))
  · exact succ_bind (pyChoice_succeeds R hWF _ hok.opre _) (fun t =>
      succ_bind (pyChoice_succeeds R hWF ps hpne _) (fun p => ⟨_, rfl⟩))

theorem pyChoicesPop_succeeds (R : RandOps σ) (pop : List α) (ws : List ℚ)
    (st : GState σ φ) (hlen : ws.length = pop.length) (hne : pop ≠ [])
    (hsum : 0 < ws.sum) : ∃ v, pyChoicesPop R pop ws st = Except.ok v :=
  let ⟨_, hx, _⟩ := pyChoicesPop_ok R pop ws st hlen hne hsum
  ⟨_, hx⟩

theorem generateBusinessName_ok (cfg : TownConfig) (R : RandOps σ) (F : FakerOps φ)
    (hWF : RandWF R) (hok : TownCfgOK cfg) (btype : String) (st : GState σ φ) :
    ∃ v, generateBusinessName cfg R F btype st = Except.ok v := by
  unfold generateBusinessName
  split_ifs
  · exact succ_bind (pyChoice_succeeds R hWF _ hok.adjDesc _) (fun adj =>
      succ_bind (pyChoice_succeeds R hWF _ hok.nounsRest _) (fun noun =>
      succ_bind (pyChoice_succeeds R hWF _ (List.cons_ne_nil _ _) _) (fun mama =>
      succ_bind (pyChoice_succeeds R hWF _ (List.cons_ne_nil _ _) _) (fun dish =>
      succ_bind (pyChoice_succeeds R hWF _ (List.cons_ne_nil _ _) _) (fun grill =>
      pyChoice_succeeds R hWF _ (List.cons_ne_nil _ _) _)))))
  · exact succ_bind (pyChoice_succeeds R hWF _ hok.nounsRetail _) (fun noun =>
      succ_bind (pyChoice_succeeds R hWF _ hok.adjLoc _) (fun locAdj =>
      succ_bind (pyChoice_succeeds R hWF _ (List.cons_ne_nil _ _) _) (fun m1 =>
      succ_bind (pyChoice_succeeds R hWF _ hok.adjSize _) (fun szAdj =>
      succ_bind (pyChoice_succeeds R hWF _ (List.cons_ne_nil _ _) _) (fun m2 =>
      pyChoice_succeeds R hWF _ (List.cons_ne_nil _ _) _)))))
  · exact succ_bind (pyChoice_succeeds R hWF _ hok.adjSpeed _) (fun spAdj =>
      succ_bind (pyChoice_succeeds R hWF _ hok.nounsGas _) (fun gnoun =>
      succ_bind (pyChoice_succeeds R hWF _ (List.cons_ne_nil _ _) _) (fun g1 =>
      succ_bind (pyChoice_succeeds R hWF _ hok.adjLoc _) (fun locAdj =>
      succ_bind (pyChoice_succeeds R hWF _ (List.cons_ne_nil _ _) _) (fun g2 =>
      pyChoice_succeeds R hWF _ (List.cons_ne_nil _ _) _)))))
  · exact succ_bind (pyChoice_succeeds R hWF _ hok.adjDesc _) (fun adj =>
      pyChoice_succeeds R hWF _ (List.cons_ne_nil _ _) _)

theorem generateLandmarkName_ok (R : RandOps σ) (F : FakerOps φ) (hWF : RandWF R)
    (ltype : String) (st : GState σ φ) :
    ∃ v, generateLandmarkName R F ltype st = Except.ok v := by
  unfold generateLandmarkName
  split_ifs
  · exact ⟨_, rfl⟩
  · exact succ_bind (pyChoice_succeeds R hWF _ (List.cons_ne_nil _ _) _)
      (fun w => ⟨_, rfl⟩)
  · exact ⟨_, rfl⟩
  · exact succ_bind (pyChoice_succeeds R hWF _ (List.cons_ne_nil _ _) _)
      (fun w => ⟨_, rfl⟩)
  · exact succ_bind (pyChoice_succeeds R hWF _ (List.cons_ne_nil _ _) _)
      (fun w => ⟨_, rfl⟩)
  · exact ⟨_, rfl⟩

theorem generateParkName_ok (cfg : TownConfig) (R : RandOps σ) (F : FakerOps φ)
    (hWF : RandWF R) (hok : TownCfgOK cfg) (ptype : String) (st : GState σ φ) :
    ∃ v, generateParkName cfg R F ptype st = Except.ok v := by
  unfold generateParkName
  exact succ_bind (pyChoice_succeeds R hWF _ hok.parkPre _) (fun pp =>
    succ_bind (pyChoice_succeeds R hWF _ hok.tree _) (fun tn =>
    pyChoice_succeeds R hWF _ (List.cons_ne_nil _ _) _))

theorem generateStreet_ok (cfg : TownConfig) (R : RandOps σ) (F : FakerOps φ)
    (ent : Nat → String) (hWF : RandWF R) (hok : TownCfgOK cfg) (st : GState σ φ) :
    ∃ v, generateStreet cfg R F ent st = Except.ok v := by
  unfold generateStreet
  exact succ_bind (generateStreetName_ok cfg R F hWF hok _) (fun nm =>
    succ_bind (pyChoice_succeeds R hWF _ (List.cons_ne_nil _ _) _) (fun ty => ⟨_, rfl⟩))

theorem generateStreets_ok (cfg : TownConfig) (R : RandOps σ) (F : FakerOps φ)
    (ent : Nat → String) (hWF : RandWF R) (hok : TownCfgOK cfg) :
    ∀ (n : Nat) (st : GState σ φ), ∃ streets st1,
      generateStreets cfg R F ent n st = Except.ok (streets, st1) ∧
      streets.length = n := by
  intro n
  induction n with
  | zero => exact fun st => ⟨[], st, rfl, rfl⟩
  | succ k ih =>
    intro st
    obtain ⟨s, hs⟩ := generateStreet_ok cfg R F ent hWF hok st
    obtain ⟨streets, st1, hstreets, hlen⟩ := ih s.2
    refine ⟨s.1 :: streets, st1, ?_, by simp [hlen]⟩
    unfold generateStreets
    rw [hs, exceptBind_ok]
    try dsimp only
    rw [hstreets, exceptBind_ok]

theorem generateBusiness_ok (cfg : TownConfig) (R : RandOps σ) (F : FakerOps φ)
    (ent : Nat → String) (streets : List Street) (hWF : RandWF R) (hok : TownCfgOK cfg)
    (hstr : streets ≠ []) (st : GState σ φ) :
    ∃ v, generateBusiness cfg R F ent streets st = Except.ok v := by
  unfold generateBusiness
  refine succ_bind (pyChoicesPop_succeeds R _ _ _ (by simp) ?_ hok.btypesSum) (fun bt =>
    succ_bind (generateBusinessName_ok cfg R F hWF hok bt.1 _) (fun bn =>
    succ_bind (pyChoice_succeeds R hWF streets hstr _) (fun sn => ⟨_, rfl⟩)))
  intro hc
  exact hok.btypes (List.map_eq_nil_iff.mp hc)

theorem generateBusinesses_ok (cfg : TownConfig) (R : RandOps σ) (F : FakerOps φ)
    (ent : Nat → String) (streets : List Street) (hWF : RandWF R) (hok : TownCfgOK cfg)
    (hstr : streets ≠ []) :
    ∀ (n : Nat) (st : GState σ φ), ∃ v,
      generateBusinesses cfg R F ent streets n st = Except.ok v := by
  intro n
  induction n with
  | zero => exact fun st => ⟨_, rfl⟩
  | succ k ih =>
    intro st
    unfold generateBusinesses
    exact succ_bind (generateBusiness_ok cfg R F ent streets hWF hok hstr st)
      (fun b => succ_bind (ih b.2) (fun rest => ⟨_, rfl⟩))

theorem generateLandmark_ok (cfg : TownConfig) (R : RandOps σ) (F : FakerOps φ)
    (ent : Nat → String) (streets : List Street) (hWF : RandWF R) (hok : TownCfgOK cfg)
    (hstr : streets ≠ []) (st : GState σ φ) :
    ∃ v, generateLandmark cfg R F ent streets st = Except.ok v := by
  unfold generateLandmark
  exact succ_bind (pyChoice_succeeds R hWF _ hok.ltypes _) (fun lt =>
    succ_bind (generateLandmarkName_ok R F hWF lt.1 _) (fun lnm =>
    succ_bind (pyChoice_succeeds R hWF streets hstr _) (fun sn =>
    succ_bind (pyChoice_succeeds R hWF _ hok.hist _) (fun hs => ⟨_, rfl⟩))))

theorem generateLandmarks_ok (cfg : TownConfig) (R : RandOps σ) (F : FakerOps φ)
    (ent : Nat → String) (streets : List Street) (hWF : RandWF R) (hok : TownCfgOK cfg)
    (hstr : streets ≠ []) :
    ∀ (n : Nat) (st : GState σ φ), ∃ v,
      generateLandmarks cfg R F ent streets n st = Except.ok v := by
  intro n
  induction n with
  | zero => exact fun st => ⟨_, rfl⟩
  | succ k ih =>
    intro st
    unfold generateLandmarks
    exact succ_bind (generateLandmark_ok cfg R F ent streets hWF hok hstr st)
      (fun l => succ_bind (ih l.2) (fun rest => ⟨_, rfl⟩))

theorem generatePark_ok (cfg : TownConfig) (R : RandOps σ) (F : FakerOps φ)
    (ent : Nat → String) (hWF : RandWF R) (hok : TownCfgOK cfg) (st : GState σ φ) :
    ∃ v, generatePark cfg R F ent st = Except.ok v := by
  unfold generatePark
  exact succ_bind (pyChoice_succeeds R hWF _ hok.ptypes _) (fun pt =>
    succ_bind (generateParkName_ok cfg R F hWF hok pt.1 _) (fun pn =>
    succ_bind (uniformChoicesK_ok R hWF _ hok.fac _ _) (fun facs => ⟨_, rfl⟩)))

theorem generateParks_ok (cfg : TownConfig) (R : RandOps σ) (F : FakerOps φ)
    (ent : Nat → String) (hWF : RandWF R) (hok : TownCfgOK cfg) :
    ∀ (n : Nat) (st : GState σ φ), ∃ v, generateParks cfg R F ent n st = Except.ok v := by
  intro n
  induction n with
  | zero => exact fun st => ⟨_, rfl⟩
  | succ k ih =>
    intro st
    unfold generateParks
    exact succ_bind (generatePark_ok cfg R F ent hWF hok st)
      (fun p => succ_bind (ih p.2) (fun rest => ⟨_, rfl⟩))

theorem generateSchool_ok (cfg : TownConfig) (R : RandOps σ) (F : FakerOps φ)
    (ent : Nat → String) (streets : List Street) (hWF : RandWF R) (hok : TownCfgOK cfg)
    (hstr : streets ≠ []) (st : GState σ φ) :
    ∃ v, generateSchool cfg R F ent streets st = Except.ok v := by
  unfold generateSchool
  exact succ_bind (pyChoice_succeeds R hWF _ hok.sctypes _) (fun sct =>
    succ_bind (pyChoice_succeeds R hWF streets hstr _) (fun stn => ⟨_, rfl⟩))

theorem generateSchools_ok (cfg : TownConfig) (R : RandOps σ) (F : FakerOps φ)
    (ent : Nat → String) (streets : List Street) (hWF : RandWF R) (hok : TownCfgOK cfg)
    (hstr : streets ≠ []) :
    ∀ (n : Nat) (st : GState σ φ), ∃ v,
      generateSchools cfg R F ent streets n st = Except.ok v := by
  intro n
  induction n with
  | zero => exact fun st => ⟨_, rfl⟩
  | succ k ih =>
    intro st
    unfold generateSchools
    exact succ_bind (generateSchool_ok cfg R F ent streets hWF hok hstr st)
      (fun s => succ_bind (ih s.2) (fun rest => ⟨_, rfl⟩))

theorem generateService_ok (cfg : TownConfig) (R : RandOps σ) (F : FakerOps φ)
    (ent : Nat → String) (townName : String) (streets : List Street) (hWF : RandWF R)
    (hok : TownCfgOK cfg) (hstr : streets ≠ []) (st : GState σ φ) :
    ∃ v, generateService cfg R F ent townName streets st = Except.ok v := by
  unfold generateService
  exact succ_bind (pyChoice_succeeds R hWF _ hok.svtypes _) (fun svt =>
    succ_bind (pyChoice_succeeds R hWF streets hstr _) (fun stn => ⟨_, rfl⟩))

theorem generateServices_ok (cfg : TownConfig) (R : RandOps σ) (F : FakerOps φ)
    (ent : Nat → String) (townName : String) (streets : List Street) (hWF : RandWF R)
    (hok : TownCfgOK cfg) (hstr : streets ≠ []) :
    ∀ (n : Nat) (st : GState σ φ), ∃ v,
      generateServices cfg R F ent townName streets n st = Except.ok v := by
  intro n
  induction n with
  | zero => exact fun st => ⟨_, rfl⟩
  | succ k ih =>
    intro st
    unfold generateServices
    exact succ_bind (generateService_ok cfg R F ent townName streets hWF hok hstr st)
      (fun s => succ_bind (ih s.2) (fun rest => ⟨_, rfl⟩))

theorem generateTown_ok (σ φ : Type) (cfg : TownConfig) (R : RandOps σ) (F : FakerOps φ)
    (ent : Nat → String) (nowIso : String) (townNameArg : Option String) (size : String)
    (st : GState σ φ) (hWF : RandWF R) (hok : TownCfgOK cfg) (sc : SizeConfig)
    (hsize : alookup cfg.townSizes size = some sc)
    (h1 : 1 ≤ sc.streetCountRange.1)
    (h12 : sc.streetCountRange.1 ≤ sc.streetCountRange.2) :
    ∃ t st1, generateTown cfg R F ent nowIso townNameArg size st = Except.ok (t, st1) ∧
      t.streets ≠ [] := by
  unfold generateTown
  rw [hsize]
  dsimp only
  obtain ⟨streets, st2, hstreets, hslen⟩ := generateStreets_ok cfg R F ent hWF hok _ _
  rw [hstreets, exceptBind_ok]
  try dsimp only
  have hsne : streets ≠ [] := by
    apply List.ne_nil_of_length_pos
    rw [hslen]
    have hpos : ∀ s0 : σ,
        0 < ((R.randint sc.streetCountRange.1 sc.streetCountRange.2 s0).1).toNat := by
      intro s0
      have := (hWF.1 _ _ s0 h12).1
      omega
    dsimp only [onR]
    exact hpos _
  obtain ⟨bs, hbs⟩ := generateBusinesses_ok cfg R F ent streets hWF hok hsne _ _
  rw [hbs, exceptBind_ok]
  try dsimp only
  obtain ⟨ls, hls⟩ := generateLandmarks_ok cfg R F ent streets hWF hok hsne _ _
  rw [hls, exceptBind_ok]
  try dsimp only
  obtain ⟨pks, hpks⟩ := generateParks_ok cfg R F ent hWF hok _ _
  rw [hpks, exceptBind_ok]
  try dsimp only
  obtain ⟨scs, hscs⟩ := generateSchools_ok cfg R F ent streets hWF hok hsne _ _
  rw [hscs, exceptBind_ok]
  try dsimp only
  obtain ⟨svs, hsvs⟩ := generateServices_ok cfg R F ent _ streets hWF hok hsne _ _
  rw [hsvs, exceptBind_ok]
  try dsimp only
  obtain ⟨cl, hcl, _⟩ := pyChoice_ok R hWF cfg.nameComponents.climateTypes _ hok.climate
  rw [hcl, exceptBind_ok]
  exact ⟨_, _, rfl, hsne⟩

theorem cfgT_ok : TownCfgOK cfgT := by
  refine ⟨⟨[("Street"), ("Road")], rfl, by decide⟩, ?_, ?_, ?_, ?_, ?_, ?_, ?_, ?_, ?_,
    ?_, ?_, ?_, ?_, ?_, ?_, ?_, ?_, ?_, ?_, ?_, ?_⟩
  all_goals first
    | decide
    | (show (0 : ℚ) < List.sum [1]; norm_num)

/-- C2 witness: a concrete successful `generate_town` run in which every
business street is the name of one of the town's streets. -/
theorem town_street_refs_c2_witness :
    ∃ t st1, generateTown cfgT Rdet Fdet entA ("2026-01-01T00:00:00") (some ("Parp"))
      ("medium") st0 = Except.ok (t, st1) ∧
      ∀ b ∈ t.businesses, ∃ s0 ∈ t.streets, b.street = s0.name := by
  obtain ⟨t, st1, hrun, _⟩ := generateTown_ok Nat Nat cfgT Rdet Fdet entA
    ("2026-01-01T00:00:00") (some ("Parp")) ("medium") st0 Rdet_wf cfgT_ok scT rfl
    (by decide) (by decide)
  exact ⟨t, st1, hrun,
    (town_street_refs_c2 Nat Nat cfgT Rdet Fdet entA ("2026-01-01T00:00:00")
      (some ("Parp")) ("medium") st0 t st1 hrun).1⟩

/-- Erase the uuid4-derived id of a street. -/
def scrubStreet (s : Street) : Street := { s with id := "" }

/-- Erase the uuid4-derived id of a business. -/
def scrubBusiness (b : Business) : Business := { b with id := "" }

/-- Erase the uuid4-derived id of a landmark. -/
def scrubLandmark (l : Landmark) : Landmark := { l with id := "" }

/-- Erase the uuid4-derived id of a park. -/
def scrubPark (p : Park) : Park := { p with id := "" }

/-- Erase the uuid4-derived id of a school. -/
def scrubSchool (s : School) : School := { s with id := "" }

/-- Erase the uuid4-derived id of a service. -/
def scrubService (s : Service) : Service := { s with id := "" }

/-- Erase everything in a town that does not come from the seeded random and
Faker streams: the uuid4-derived ids and the wall-clock `generated_at`. -/
def scrubTown (t : Town) : Town :=
  { t with
    id := ""
    generatedAt := ""
    streets := t.streets.map scrubStreet
    businesses := t.businesses.map scrubBusiness
    landmarks := t.landmarks.map scrubLandmark
    parks := t.parks.map scrubPark
    schools := t.schools.map scrubSchool
    services := t.services.map scrubService }

/-- Erase the uuid4-derived id of a person. -/
def scrubPerson (p : Person) : Person := { p with id := "" }

theorem map_eq_cases {α γ : Type _} {m : α → γ} {e1 e2 : Except String α}
    (h : Except.map m e1 = Except.map m e2) :
    (∃ s, e1 = Except.error s ∧ e2 = Except.error s) ∨
    (∃ v1 v2, e1 = Except.ok v1 ∧ e2 = Except.ok v2 ∧ m v1 = m v2) := by
  cases e1 with
  | error s1 =>
    cases e2 with
    | error s2 =>
      left
      simp only [Except.map] at h
      cases h
      exact ⟨s1, rfl, rfl⟩
    | ok v2 => simp [Except.map] at h
  | ok v1 =>
    cases e2 with
    | error s2 => simp [Except.map] at h
    | ok v2 =>
      right
      simp only [Except.map, Except.ok.injEq] at h
      exact ⟨v1, v2, rfl, rfl, h⟩

theorem scrub_bind {α β γ δ : Type _} {e1 e2 : Except String α}
    {k1 k2 : α → Except String β} {m : α → γ} {mo : β → δ}
    (he : Except.map m e1 = Except.map m e2)
    (hk : ∀ v1 v2, m v1 = m v2 →
      Except.map mo (k1 v1) = Except.map mo (k2 v2)) :
    Except.map mo (e1 >>= k1) = Except.map mo (e2 >>= k2) := by
  rcases map_eq_cases he with ⟨s, h1, h2⟩ | ⟨v1, v2, h1, h2, hm⟩
  · rw [h1, h2]
    rfl
  · rw [h1, h2, exceptBind_ok, exceptBind_ok]
    exact hk v1 v2 hm

theorem scrub_bind_same {α β δ : Type _} {e : Except String α}
    {k1 k2 : α → Except String β} {mo : β → δ}
    (hk : ∀ v, Except.map mo (k1 v) = Except.map mo (k2 v)) :
    Except.map mo (e >>= k1) = Except.map mo (e >>= k2) := by
  refine scrub_bind (m := fun a => a) rfl (fun v1 v2 hv => ?_)
  have hv2 : v1 = v2 := hv
  rw [← hv2]
  exact hk v1

@[simp] theorem onR_snd_u (g : σ → α × σ) (st : GState σ φ) : (onR g st).2.u = st.u := rfl

@[simp] theorem onF_snd_u (g : φ → α × φ) (st : GState σ φ) : (onF g st).2.u = st.u := rfl

@[simp] theorem ite_snd_u (c : Prop) [Decidable c] (x y : α × GState σ φ) :
    (if c then x else y).2.u = if c then x.2.u else y.2.u := by
  split <;> rfl

theorem pyChoice_u (R : RandOps σ) (xs : List α) (st : GState σ φ)
    (v : α × GState σ φ) (h : pyChoice R xs st = Except.ok v) : v.2.u = st.u := by
  unfold pyChoice at h
  cases hc : pyChoiceCore R xs st.r with
  | error e => rw [hc] at h; cases h
  | ok vs => rw [hc] at h; cases h; rfl

theorem pyChoicesPop_u (R : RandOps σ) (pop : List α) (ws : List ℚ) (st : GState σ φ)
    (v : α × GState σ φ) (h : pyChoicesPop R pop ws st = Except.ok v) : v.2.u = st.u := by
  unfold pyChoicesPop at h
  cases hc : pyChoices1 R pop.length ws st.r with
  | error e => rw [hc] at h; cases h
  | ok is =>
    rw [hc] at h
    try dsimp only at h
    cases hg : pop.get? is.1 with
    | none => rw [hg] at h; cases h
    | some x => rw [hg] at h; cases h; rfl

theorem generateWeightedAge_u (cfg : PeopleConfig) (R : RandOps σ) (st : GState σ φ)
    (v : Int × GState σ φ) (h : generateWeightedAge cfg R st = Except.ok v) :
    v.2.u = st.u := pyChoicesPop_u R _ _ st v h

theorem generateWeightedEducation_u (cfg : PeopleConfig) (R : RandOps σ) (age : Int)
    (st : GState σ φ) (v : String × GState σ φ)
    (h : generateWeightedEducation cfg R age st = Except.ok v) : v.2.u = st.u := by
  unfold generateWeightedEducation at h
  split_ifs at h <;> exact pyChoicesPop_u R _ _ st v h

theorem generateWeightedEmployment_u (cfg : PeopleConfig) (R : RandOps σ) (age : Int)
    (st : GState σ φ) (v : String × GState σ φ)
    (h : generateWeightedEmployment cfg R age st = Except.ok v) : v.2.u = st.u := by
  unfold generateWeightedEmployment at h
  split_ifs at h <;> exact pyChoicesPop_u R _ _ st v h

theorem generateWeightedMaritalStatus_u (cfg : PeopleConfig) (R : RandOps σ) (age : Int)
    (st : GState σ φ) (v : String × GState σ φ)
    (h : generateWeightedMaritalStatus cfg R age st = Except.ok v) : v.2.u = st.u := by
  unfold generateWeightedMaritalStatus at h
  split_ifs at h <;> exact pyChoicesPop_u R _ _ st v h

theorem generateHouseholdSize_u (R : RandOps σ) (age : Int) (st : GState σ φ)
    (v : Int × GState σ φ) (h : generateHouseholdSize R age st = Except.ok v) :
    v.2.u = st.u := by
  unfold generateHouseholdSize at h
  split_ifs at h <;> exact pyChoicesPop_u R _ _ st v h

@[simp] theorem generateIncome_u (cfg : PeopleConfig) (R : RandOps σ)
    (education employment : String) (age : Int) (st : GState σ φ) :
    (generateIncome cfg R education employment age st).2.u = st.u := by
  unfold generateIncome
  split_ifs <;> rfl

@[simp] theorem generateLocation_u (F : FakerOps φ) (st : GState σ φ) :
    (generateLocation F st).2.u = st.u := by
  unfold generateLocation
  split_ifs <;> rfl

theorem generateAddressWithTownStreets_u (cfg : PeopleConfig) (R : RandOps σ)
    (F : FakerOps φ) (st : GState σ φ) (v : String × GState σ φ)
    (h : generateAddressWithTownStreets cfg R F st = Except.ok v) : v.2.u = st.u := by
  unfold generateAddressWithTownStreets at h
  by_cases he : cfg.streetNames.isEmpty
  · rw [if_pos he] at h
    cases h
    rfl
  · rw [if_neg he] at h
    obtain ⟨sd, hsd, h⟩ := exceptBind_ok_inv h
    try dsimp only at h
    cases h
    have h1 : sd.2.u = st.u := pyChoice_u R _ st sd hsd
    simp [h1]

theorem generateTemperament_u (cfg : PeopleConfig) (R : RandOps σ) (age : Int)
    (education employment : String) (st : GState σ φ) (v : Temperament × GState σ φ)
    (h : generateTemperament cfg R age education employment st = Except.ok v) :
    v.2.u = st.u := pyChoicesPop_u R _ _ st v h

theorem generatePerson_id (cfg : PeopleConfig) (R : RandOps σ) (F : FakerOps φ)
    (ent : Nat → String) (year : Int) (st : GState σ φ) (p : Person) (st1 : GState σ φ)
    (h : generatePerson cfg R F ent year st = Except.ok (p, st1)) :
    p.id = (ent st.u).take 8 := by
  unfold generatePerson at h
  obtain ⟨g, hg, h⟩ := exceptBind_ok_inv h
  try dsimp only at h
  obtain ⟨a, ha, h⟩ := exceptBind_ok_inv h
  try dsimp only at h
  obtain ⟨edu, hedu, h⟩ := exceptBind_ok_inv h
  try dsimp only at h
  obtain ⟨emp, hemp, h⟩ := exceptBind_ok_inv h
  try dsimp only at h
  obtain ⟨hh, hhh, h⟩ := exceptBind_ok_inv h
  try dsimp only at h
  obtain ⟨mar, hmar, h⟩ := exceptBind_ok_inv h
  try dsimp only at h
  obtain ⟨addr, haddr, h⟩ := exceptBind_ok_inv h
  try dsimp only at h
  obtain ⟨temp, htemp, h⟩ := exceptBind_ok_inv h
  try dsimp only at h
  have h1 : g.2.u = st.u := pyChoice_u R _ st g hg
  have h2 : a.2.u = st.u := by
    have := generateWeightedAge_u cfg R _ a ha
    simpa [h1] using this
  have h3 : edu.2.u = st.u := by
    have := generateWeightedEducation_u cfg R a.1 _ edu hedu
    simpa [h2] using this
  have h4 : emp.2.u = st.u := by
    have := generateWeightedEmployment_u cfg R a.1 _ emp hemp
    simpa [h3] using this
  have h5 : hh.2.u = st.u := by
    have := generateHouseholdSize_u R a.1 _ hh hhh
    simpa [h4] using this
  have h6 : mar.2.u = st.u := by
    have := generateWeightedMaritalStatus_u cfg R a.1 _ mar hmar
    simpa [h5] using this
  have h7 : addr.2.u = st.u := by
    have := generateAddressWithTownStreets_u cfg R F _ addr haddr
    simpa [h6] using this
  have h8 : temp.2.u = st.u := by
    have := generateTemperament_u cfg R a.1 edu.1 emp.1 _ temp htemp
    simpa [h7] using this
  simp only [Except.ok.injEq, Prod.mk.injEq] at h
  obtain ⟨hp, -⟩ := h
  rw [← hp]
  dsimp only [useUuid]
  rw [h8]

theorem generatePersonList_head_id (cfg : PeopleConfig) (R : RandOps σ) (F : FakerOps φ)
    (ent : Nat → String) (year : Int) (k : Nat) (st : GState σ φ) (l : List Person)
    (st1 : GState σ φ)
    (h : generatePersonList cfg R F ent year (Nat.succ k) st = Except.ok (l, st1)) :
    ∃ p rest, l = p :: rest ∧ p.id = (ent st.u).take 8 := by
  unfold generatePersonList at h
  obtain ⟨pp, hp, h⟩ := exceptBind_ok_inv h
  try dsimp only at h
  obtain ⟨rest, hrest, h⟩ := exceptBind_ok_inv h
  try dsimp only at h
  simp only [Except.ok.injEq, Prod.mk.injEq] at h
  obtain ⟨hl, -⟩ := h
  refine ⟨pp.1, rest.1, hl.symm, ?_⟩
  exact generatePerson_id cfg R F ent year st pp.1 pp.2 (by rw [hp])

theorem generateStreet_id (cfg : TownConfig) (R : RandOps σ) (F : FakerOps φ)
    (ent : Nat → String) (st : GState σ φ) (s : Street) (st1 : GState σ φ)
    (h : generateStreet cfg R F ent st = Except.ok (s, st1)) : s.id = ent st.u := by
  unfold generateStreet at h
  try dsimp only at h
  obtain ⟨nm, hnm, h⟩ := exceptBind_ok_inv h
  try dsimp only at h
  obtain ⟨ty, hty, h⟩ := exceptBind_ok_inv h
  try dsimp only at h
  simp only [Except.ok.injEq, Prod.mk.injEq] at h
  obtain ⟨hs, -⟩ := h
  rw [← hs]
  dsimp only [useUuid]

theorem generateStreets_head_id (cfg : TownConfig) (R : RandOps σ) (F : FakerOps φ)
    (ent : Nat → String) (k : Nat) (st : GState σ φ) (l : List Street) (st1 : GState σ φ)
    (h : generateStreets cfg R F ent (Nat.succ k) st = Except.ok (l, st1)) :
    ∃ s rest, l = s :: rest ∧ s.id = ent st.u := by
  unfold generateStreets at h
  obtain ⟨s, hs, h⟩ := exceptBind_ok_inv h
  try dsimp only at h
  obtain ⟨rest, hrest, h⟩ := exceptBind_ok_inv h
  try dsimp only at h
  simp only [Except.ok.injEq, Prod.mk.injEq] at h
  obtain ⟨hl, -⟩ := h
  refine ⟨s.1, rest.1, hl.symm, ?_⟩
  exact generateStreet_id cfg R F ent st s.1 s.2 (by rw [hs])

theorem generateTown_streets_head_id (cfg : TownConfig) (R : RandOps σ) (F : FakerOps φ)
    (ent : Nat → String) (iso : String) (nm size : String) (st : GState σ φ)
    (t : Town) (st1 : GState σ φ)
    (h : generateTown cfg R F ent iso (some nm) size st = Except.ok (t, st1))
    (hne : t.streets ≠ []) :
    ∃ s rest, t.streets = s :: rest ∧ s.id = ent st.u := by
  unfold generateTown at h
  cases halk : alookup cfg.townSizes size with
  | none => rw [halk] at h; cases h
  | some sc =>
    rw [halk] at h
    try dsimp only at h
    obtain ⟨streets, hstreets, h⟩ := exceptBind_ok_inv h
    try dsimp only at h
    obtain ⟨businesses, hb, h⟩ := exceptBind_ok_inv h
    try dsimp only at h
    obtain ⟨landmarks, hl, h⟩ := exceptBind_ok_inv h
    try dsimp only at h
    obtain ⟨parks, hpk, h⟩ := exceptBind_ok_inv h
    try dsimp only at h
    obtain ⟨schools, hsc, h⟩ := exceptBind_ok_inv h
    try dsimp only at h
    obtain ⟨services, hsv, h⟩ := exceptBind_ok_inv h
    try dsimp only at h
    obtain ⟨climate, hcl, h⟩ := exceptBind_ok_inv h
    try dsimp only at h
    simp only [Except.ok.injEq, Prod.mk.injEq] at h
    obtain ⟨ht, -⟩ := h
    have hts : t.streets = streets.1 := by rw [← ht]
    rw [hts] at hne ⊢
    cases hcnt : (onR (R.randint sc.streetCountRange.1 sc.streetCountRange.2)
        (onR (R.randint sc.populationRange.1 sc.populationRange.2) st).2).1.toNat with
    | zero =>
      rw [hcnt] at hstreets
      unfold generateStreets at hstreets
      simp only [Except.ok.injEq] at hstreets
      exact absurd (congrArg Prod.fst hstreets.symm) (by simpa using hne)
    | succ k =>
      rw [hcnt] at hstreets
      obtain ⟨s, rest, hcons, hid⟩ := generateStreets_head_id cfg R F ent k _ streets.1
        streets.2 (by rw [hstreets])
      exact ⟨s, rest, hcons, hid⟩

/-- C1 counterexample: with the same seeded sources (`Rdet`, `Fdet`), the same
config, name, size and initial state, two runs that differ only in the OS
entropy behind `uuid.uuid4()` (`entA` vs `entB`) produce different towns and
different people datasets: the id fields are uuid4-derived, and `random.seed`
does not control `os.urandom`. -/
theorem determinism_c1_counterexample :
    generateTown cfgT Rdet Fdet entA ("2026-01-01T00:00:00") (some ("Parp"))
        ("medium") st0 ≠
      generateTown cfgT Rdet Fdet entB ("2026-01-01T00:00:00") (some ("Parp"))
        ("medium") st0 ∧
    generateDataset cfgP Rdet Fdet entA 2026 (PyNum.int 1) st0 ≠
      generateDataset cfgP Rdet Fdet entB 2026 (PyNum.int 1) st0 := by
  constructor
  · obtain ⟨t1, s1, h1, hne1⟩ := generateTown_ok Nat Nat cfgT Rdet Fdet entA
      ("2026-01-01T00:00:00") (some ("Parp")) ("medium") st0 Rdet_wf cfgT_ok scT rfl
      (by decide) (by decide)
    obtain ⟨t2, s2, h2, hne2⟩ := generateTown_ok Nat Nat cfgT Rdet Fdet entB
      ("2026-01-01T00:00:00") (some ("Parp")) ("medium") st0 Rdet_wf cfgT_ok scT rfl
      (by decide) (by decide)
    intro hc
    rw [h1, h2] at hc
    simp only [Except.ok.injEq, Prod.mk.injEq] at hc
    obtain ⟨ht, -⟩ := hc
    obtain ⟨sa, ra, hta, hida⟩ := generateTown_streets_head_id cfgT Rdet Fdet entA
      ("2026-01-01T00:00:00") ("Parp") ("medium") st0 t1 s1 h1 hne1
    obtain ⟨sb, rb, htb, hidb⟩ := generateTown_streets_head_id cfgT Rdet Fdet entB
      ("2026-01-01T00:00:00") ("Parp") ("medium") st0 t2 s2 h2 hne2
    rw [ht, htb] at hta
    simp only [List.cons.injEq] at hta
    have : entB st0.u = entA st0.u := by rw [← hidb, hta.1, hida]
    exact absurd this (by decide)
  · obtain ⟨l1, s1, hl1, -⟩ := generatePersonList_ok Nat Nat cfgP Rdet Fdet entA 2026
      Rdet_wf (by decide) (by decide) (by decide) (by decide) (by decide) 1 st0
    obtain ⟨l2, s2, hl2, -⟩ := generatePersonList_ok Nat Nat cfgP Rdet Fdet entB 2026
      Rdet_wf (by decide) (by decide) (by decide) (by decide) (by decide) 1 st0
    intro hc
    unfold generateDataset at hc
    try dsimp only at hc
    rw [if_neg (by decide)] at hc
    rw [if_neg (by decide)] at hc
    have hIt : ((1 : Int)).toNat = 1 := rfl
    rw [hIt, hl1, hl2] at hc
    simp only [Except.ok.injEq, Prod.mk.injEq] at hc
    obtain ⟨hl, -⟩ := hc
    obtain ⟨p1, r1, hc1, hid1⟩ := generatePersonList_head_id cfgP Rdet Fdet entA 2026
      0 st0 l1 s1 (by exact hl1)
    obtain ⟨p2, r2, hc2, hid2⟩ := generatePersonList_head_id cfgP Rdet Fdet entB 2026
      0 st0 l2 s2 (by exact hl2)
    rw [hl, hc2] at hc1
    simp only [List.cons.injEq] at hc1
    have : (entB st0.u).take 8 = (entA st0.u).take 8 := by
      rw [← hid2, hc1.1, hid1]
    exact absurd this (by decide)

theorem pyChoiceCore_map_congr {β : Type _} (R : RandOps σ) (f : α → β) (xs ys : List α)
    (h : xs.map f = ys.map f) (s : σ) :
    Except.map (fun p => (f p.1, p.2)) (pyChoiceCore R xs s) =
      Except.map (fun p => (f p.1, p.2)) (pyChoiceCore R ys s) := by
  have hlen : xs.length = ys.length := by
    have := congrArg List.length h
    simpa using this
  unfold pyChoiceCore
  dsimp only
  rw [hlen]
  cases hx : xs.get? (R.choiceIdx ys.length s).1 with
  | none =>
    have hy : ys.get? (R.choiceIdx ys.length s).1 = none := by
      rw [List.get?_eq_none] at hx ⊢
      omega
    rw [hy]
  | some x =>
    have hmx : (ys.map f).get? (R.choiceIdx ys.length s).1 = some (f x) := by
      rw [← h, List.get?_map, hx]
      rfl
    rw [List.get?_map] at hmx
    obtain ⟨y, hy, hfy⟩ := Option.map_eq_some'.mp hmx
    rw [hy]
    simp only [Except.map, Except.ok.injEq, Prod.mk.injEq]
    exact ⟨hfy.symm, trivial⟩

theorem pyChoice_map_congr {β : Type _} (R : RandOps σ) (f : α → β) (xs ys : List α)
    (h : xs.map f = ys.map f) (st : GState σ φ) :
    Except.map (fun p => (f p.1, p.2)) (pyChoice R xs st) =
      Except.map (fun p => (f p.1, p.2)) (pyChoice R ys st) := by
  unfold pyChoice
  have hcore := pyChoiceCore_map_congr R f xs ys h st.r
  rcases map_eq_cases hcore with ⟨s, h1, h2⟩ | ⟨v1, v2, h1, h2, hm⟩
  · rw [h1, h2]
  · rw [h1, h2]
    try dsimp only
    simp only [Prod.mk.injEq] at hm
    simp only [Except.map, Except.ok.injEq, Prod.mk.injEq]
    exact ⟨hm.1, by rw [hm.2]⟩

theorem generateStreet_scrub (cfg : TownConfig) (R : RandOps σ) (F : FakerOps φ)
    (ent1 ent2 : Nat → String) (st : GState σ φ) :
    Except.map (fun p => (scrubStreet p.1, p.2)) (generateStreet cfg R F ent1 st) =
      Except.map (fun p => (scrubStreet p.1, p.2)) (generateStreet cfg R F ent2 st) := by
  unfold generateStreet
  dsimp only [useUuid]
  refine scrub_bind_same (fun nm => ?_)
  dsimp only
  refine scrub_bind_same (fun ty => ?_)
  rfl

theorem generateStreets_scrub (cfg : TownConfig) (R : RandOps σ) (F : FakerOps φ)
    (ent1 ent2 : Nat → String) :
    ∀ (n : Nat) (st : GState σ φ),
      Except.map (fun p => (p.1.map scrubStreet, p.2))
          (generateStreets cfg R F ent1 n st) =
        Except.map (fun p => (p.1.map scrubStreet, p.2))
          (generateStreets cfg R F ent2 n st) := by
  intro n
  induction n with
  | zero => intro st; rfl
  | succ k ih =>
    intro st
    unfold generateStreets
    refine scrub_bind (generateStreet_scrub cfg R F ent1 ent2 st) (fun v1 v2 hm => ?_)
    simp only [Prod.mk.injEq] at hm
    obtain ⟨hm1, hm2⟩ := hm
    try dsimp only
    rw [← hm2]
    refine scrub_bind (ih v1.2) (fun r1 r2 hr => ?_)
    simp only [Prod.mk.injEq] at hr
    obtain ⟨hr1, hr2⟩ := hr
    try dsimp only
    simp only [Except.map, List.map_cons, Except.ok.injEq, Prod.mk.injEq, List.cons.injEq]
    exact ⟨⟨hm1, hr1⟩, hr2⟩

theorem generatePerson_scrub (cfg : PeopleConfig) (R : RandOps σ) (F : FakerOps φ)
    (ent1 ent2 : Nat → String) (year : Int) (st : GState σ φ) :
    Except.map (fun p => (scrubPerson p.1, p.2)) (generatePerson cfg R F ent1 year st) =
      Except.map (fun p => (scrubPerson p.1, p.2)) (generatePerson cfg R F ent2 year st) := by
  unfold generatePerson
  refine scrub_bind_same (fun g => ?_)
  try dsimp only
  refine scrub_bind_same (fun a => ?_)
  try dsimp only
  refine scrub_bind_same (fun edu => ?_)
  try dsimp only
  refine scrub_bind_same (fun emp => ?_)
  try dsimp only
  refine scrub_bind_same (fun hh => ?_)
  try dsimp only
  refine scrub_bind_same (fun mar => ?_)
  try dsimp only
  refine scrub_bind_same (fun addr => ?_)
  try dsimp only
  refine scrub_bind_same (fun temp => ?_)
  try dsimp only [useUuid]
  simp only [Except.map, Except.ok.injEq, Prod.mk.injEq, scrubPerson, Person.mk.injEq]

theorem generatePersonList_scrub (cfg : PeopleConfig) (R : RandOps σ) (F : FakerOps φ)
    (ent1 ent2 : Nat → String) (year : Int) :
    ∀ (n : Nat) (st : GState σ φ),
      Except.map (fun p => (p.1.map scrubPerson, p.2))
          (generatePersonList cfg R F ent1 year n st) =
        Except.map (fun p => (p.1.map scrubPerson, p.2))
          (generatePersonList cfg R F ent2 year n st) := by
  intro n
  induction n with
  | zero => intro st; rfl
  | succ k ih =>
    intro st
    unfold generatePersonList
    refine scrub_bind (generatePerson_scrub cfg R F ent1 ent2 year st) (fun v1 v2 hm => ?_)
    simp only [Prod.mk.injEq] at hm
    obtain ⟨hm1, hm2⟩ := hm
    try dsimp only
    rw [← hm2]
    refine scrub_bind (ih v1.2) (fun r1 r2 hr => ?_)
    simp only [Prod.mk.injEq] at hr
    obtain ⟨hr1, hr2⟩ := hr
    try dsimp only
    simp only [Except.map, List.map_cons, Except.ok.injEq, Prod.mk.injEq, List.cons.injEq]
    exact ⟨⟨hm1, hr1⟩, hr2⟩

theorem generateBusiness_scrub (cfg : TownConfig) (R : RandOps σ) (F : FakerOps φ)
    (ent1 ent2 : Nat → String) (streets1 streets2 : List Street)
    (hstr : streets1.map scrubStreet = streets2.map scrubStreet) (st : GState σ φ) :
    Except.map (fun p => (scrubBusiness p.1, p.2))
        (generateBusiness cfg R F ent1 streets1 st) =
      Except.map (fun p => (scrubBusiness p.1, p.2))
        (generateBusiness cfg R F ent2 streets2 st) := by
  unfold generateBusiness
  refine scrub_bind_same (fun bt => ?_)
  try dsimp only [useUuid]
  refine scrub_bind_same (fun bn => ?_)
  try dsimp only
  refine scrub_bind (pyChoice_map_congr R scrubStreet streets1 streets2 hstr bn.2)
    (fun sn1 sn2 hm => ?_)
  have hname : sn1.1.name = sn2.1.name := congrArg (fun q => q.1.name) hm
  have hst : sn1.2 = sn2.2 := congrArg (fun q => q.2) hm
  try dsimp only
  rw [← hst, ← hname]
  simp only [Except.map, Except.ok.injEq, Prod.mk.injEq, scrubBusiness, Business.mk.injEq]

theorem generateBusinesses_scrub (cfg : TownConfig) (R : RandOps σ) (F : FakerOps φ)
    (ent1 ent2 : Nat → String) (streets1 streets2 : List Street)
    (hstr : streets1.map scrubStreet = streets2.map scrubStreet) :
    ∀ (n : Nat) (st : GState σ φ),
      Except.map (fun p => (p.1.map scrubBusiness, p.2))
          (generateBusinesses cfg R F ent1 streets1 n st) =
        Except.map (fun p => (p.1.map scrubBusiness, p.2))
          (generateBusinesses cfg R F ent2 streets2 n st) := by
  intro n
  induction n with
  | zero => intro st; rfl
  | succ k ih =>
    intro st
    unfold generateBusinesses
    refine scrub_bind (generateBusiness_scrub cfg R F ent1 ent2 streets1 streets2 hstr st)
      (fun v1 v2 hm => ?_)
    simp only [Prod.mk.injEq] at hm
    obtain ⟨hm1, hm2⟩ := hm
    try dsimp only
    rw [← hm2]
    refine scrub_bind (ih v1.2) (fun r1 r2 hr => ?_)
    simp only [Prod.mk.injEq] at hr
    obtain ⟨hr1, hr2⟩ := hr
    try dsimp only
    simp only [Except.map, List.map_cons, Except.ok.injEq, Prod.mk.injEq, List.cons.injEq]
    exact ⟨⟨hm1, hr1⟩, hr2⟩

theorem generateLandmark_scrub (cfg : TownConfig) (R : RandOps σ) (F : FakerOps φ)
    (ent1 ent2 : Nat → String) (streets1 streets2 : List Street)
    (hstr : streets1.map scrubStreet = streets2.map scrubStreet) (st : GState σ φ) :
    Except.map (fun p => (scrubLandmark p.1, p.2))
        (generateLandmark cfg R F ent1 streets1 st) =
      Except.map (fun p => (scrubLandmark p.1, p.2))
        (generateLandmark cfg R F ent2 streets2 st) := by
  unfold generateLandmark
  refine scrub_bind_same (fun lt => ?_)
  try dsimp only [useUuid]
  refine scrub_bind_same (fun lnm => ?_)
  try dsimp only
  refine scrub_bind (pyChoice_map_congr R scrubStreet streets1 streets2 hstr lnm.2)
    (fun sn1 sn2 hm => ?_)
  have hname : sn1.1.name = sn2.1.name := congrArg (fun q => q.1.name) hm
  have hst : sn1.2 = sn2.2 := congrArg (fun q => q.2) hm
  try dsimp only
  rw [← hst, ← hname]
  refine scrub_bind_same (fun hsg => ?_)
  try dsimp only
  simp only [Except.map, Except.ok.injEq, Prod.mk.injEq, scrubLandmark, Landmark.mk.injEq]

theorem generateLandmarks_scrub (cfg : TownConfig) (R : RandOps σ) (F : FakerOps φ)
    (ent1 ent2 : Nat → String) (streets1 streets2 : List Street)
    (hstr : streets1.map scrubStreet = streets2.map scrubStreet) :
    ∀ (n : Nat) (st : GState σ φ),
      Except.map (fun p => (p.1.map scrubLandmark, p.2))
          (generateLandmarks cfg R F ent1 streets1 n st) =
        Except.map (fun p => (p.1.map scrubLandmark, p.2))
          (generateLandmarks cfg R F ent2 streets2 n st) := by
  intro n
  induction n with
  | zero => intro st; rfl
  | succ k ih =>
    intro st
    unfold generateLandmarks
    refine scrub_bind (generateLandmark_scrub cfg R F ent1 ent2 streets1 streets2 hstr st)
      (fun v1 v2 hm => ?_)
    simp only [Prod.mk.injEq] at hm
    obtain ⟨hm1, hm2⟩ := hm
    try dsimp only
    rw [← hm2]
    refine scrub_bind (ih v1.2) (fun r1 r2 hr => ?_)
    simp only [Prod.mk.injEq] at hr
    obtain ⟨hr1, hr2⟩ := hr
    try dsimp only
    simp only [Except.map, List.map_cons, Except.ok.injEq, Prod.mk.injEq, List.cons.injEq]
    exact ⟨⟨hm1, hr1⟩, hr2⟩

theorem generatePark_scrub (cfg : TownConfig) (R : RandOps σ) (F : FakerOps φ)
    (ent1 ent2 : Nat → String) (st : GState σ φ) :
    Except.map (fun p => (scrubPark p.1, p.2)) (generatePark cfg R F ent1 st) =
      Except.map (fun p => (scrubPark p.1, p.2)) (generatePark cfg R F ent2 st) := by
  unfold generatePark
  refine scrub_bind_same (fun pt => ?_)
  try dsimp only [useUuid]
  refine scrub_bind_same (fun pn => ?_)
  try dsimp only
  refine scrub_bind_same (fun facs => ?_)
  try dsimp only
  simp only [Except.map, Except.ok.injEq, Prod.mk.injEq, scrubPark, Park.mk.injEq]

theorem generateParks_scrub (cfg : TownConfig) (R : RandOps σ) (F : FakerOps φ)
    (ent1 ent2 : Nat → String) :
    ∀ (n : Nat) (st : GState σ φ),
      Except.map (fun p => (p.1.map scrubPark, p.2)) (generateParks cfg R F ent1 n st) =
        Except.map (fun p => (p.1.map scrubPark, p.2)) (generateParks cfg R F ent2 n st) := by
  intro n
  induction n with
  | zero => intro st; rfl
  | succ k ih =>
    intro st
    unfold generateParks
    refine scrub_bind (generatePark_scrub cfg R F ent1 ent2 st) (fun v1 v2 hm => ?_)
    simp only [Prod.mk.injEq] at hm
    obtain ⟨hm1, hm2⟩ := hm
    try dsimp only
    rw [← hm2]
    refine scrub_bind (ih v1.2) (fun r1 r2 hr => ?_)
    simp only [Prod.mk.injEq] at hr
    obtain ⟨hr1, hr2⟩ := hr
    try dsimp only
    simp only [Except.map, List.map_cons, Except.ok.injEq, Prod.mk.injEq, List.cons.injEq]
    exact ⟨⟨hm1, hr1⟩, hr2⟩

theorem generateSchool_scrub (cfg : TownConfig) (R : RandOps σ) (F : FakerOps φ)
    (ent1 ent2 : Nat → String) (streets1 streets2 : List Street)
    (hstr : streets1.map scrubStreet = streets2.map scrubStreet) (st : GState σ φ) :
    Except.map (fun p => (scrubSchool p.1, p.2))
        (generateSchool cfg R F ent1 streets1 st) =
      Except.map (fun p => (scrubSchool p.1, p.2))
        (generateSchool cfg R F ent2 streets2 st) := by
  unfold generateSchool
  refine scrub_bind_same (fun sct => ?_)
  try dsimp only [useUuid]
  refine scrub_bind (pyChoice_map_congr R scrubStreet streets1 streets2 hstr _)
    (fun sn1 sn2 hm => ?_)
  have hname : sn1.1.name = sn2.1.name := congrArg (fun q => q.1.name) hm
  have hst : sn1.2 = sn2.2 := congrArg (fun q => q.2) hm
  try dsimp only
  rw [← hst, ← hname]
  simp only [Except.map, Except.ok.injEq, Prod.mk.injEq, scrubSchool, School.mk.injEq]

theorem generateSchools_scrub (cfg : TownConfig) (R : RandOps σ) (F : FakerOps φ)
    (ent1 ent2 : Nat → String) (streets1 streets2 : List Street)
    (hstr : streets1.map scrubStreet = streets2.map scrubStreet) :
    ∀ (n : Nat) (st : GState σ φ),
      Except.map (fun p => (p.1.map scrubSchool, p.2))
          (generateSchools cfg R F ent1 streets1 n st) =
        Except.map (fun p => (p.1.map scrubSchool, p.2))
          (generateSchools cfg R F ent2 streets2 n st) := by
  intro n
  induction n with
  | zero => intro st; rfl
  | succ k ih =>
    intro st
    unfold generateSchools
    refine scrub_bind (generateSchool_scrub cfg R F ent1 ent2 streets1 streets2 hstr st)
      (fun v1 v2 hm => ?_)
    simp only [Prod.mk.injEq] at hm
    obtain ⟨hm1, hm2⟩ := hm
    try dsimp only
    rw [← hm2]
    refine scrub_bind (ih v1.2) (fun r1 r2 hr => ?_)
    simp only [Prod.mk.injEq] at hr
    obtain ⟨hr1, hr2⟩ := hr
    try dsimp only
    simp only [Except.map, List.map_cons, Except.ok.injEq, Prod.mk.injEq, List.cons.injEq]
    exact ⟨⟨hm1, hr1⟩, hr2⟩

theorem generateService_scrub (cfg : TownConfig) (R : RandOps σ) (F : FakerOps φ)
    (ent1 ent2 : Nat → String) (townName : String) (streets1 streets2 : List Street)
    (hstr : streets1.map scrubStreet = streets2.map scrubStreet) (st : GState σ φ) :
    Except.map (fun p => (scrubService p.1, p.2))
        (generateService cfg R F ent1 townName streets1 st) =
      Except.map (fun p => (scrubService p.1, p.2))
        (generateService cfg R F ent2 townName streets2 st) := by
  unfold generateService
  refine scrub_bind_same (fun svt => ?_)
  try dsimp only [useUuid]
  refine scrub_bind (pyChoice_map_congr R scrubStreet streets1 streets2 hstr _)
    (fun sn1 sn2 hm => ?_)
  have hname : sn1.1.name = sn2.1.name := congrArg (fun q => q.1.name) hm
  have hst : sn1.2 = sn2.2 := congrArg (fun q => q.2) hm
  try dsimp only
  rw [← hst, ← hname]
  simp only [Except.map, Except.ok.injEq, Prod.mk.injEq, scrubService, Service.mk.injEq]

theorem generateServices_scrub (cfg : TownConfig) (R : RandOps σ) (F : FakerOps φ)
    (ent1 ent2 : Nat → String) (townName : String) (streets1 streets2 : List Street)
    (hstr : streets1.map scrubStreet = streets2.map scrubStreet) :
    ∀ (n : Nat) (st : GState σ φ),
      Except.map (fun p => (p.1.map scrubService, p.2))
          (generateServices cfg R F ent1 townName streets1 n st) =
        Except.map (fun p => (p.1.map scrubService, p.2))
          (generateServices cfg R F ent2 townName streets2 n st) := by
  intro n
  induction n with
  | zero => intro st; rfl
  | succ k ih =>
    intro st
    unfold generateServices
    refine scrub_bind
      (generateService_scrub cfg R F ent1 ent2 townName streets1 streets2 hstr st)
      (fun v1 v2 hm => ?_)
    simp only [Prod.mk.injEq] at hm
    obtain ⟨hm1, hm2⟩ := hm
    try dsimp only
    rw [← hm2]
    refine scrub_bind (ih v1.2) (fun r1 r2 hr => ?_)
    simp only [Prod.mk.injEq] at hr
    obtain ⟨hr1, hr2⟩ := hr
    try dsimp only
    simp only [Except.map, List.map_cons, Except.ok.injEq, Prod.mk.injEq, List.cons.injEq]
    exact ⟨⟨hm1, hr1⟩, hr2⟩

theorem generateTown_scrub (cfg : TownConfig) (R : RandOps σ) (F : FakerOps φ)
    (ent1 ent2 : Nat → String) (iso1 iso2 : String) (townNameArg : Option String)
    (size : String) (st : GState σ φ) :
    Except.map (fun p => (scrubTown p.1, p.2))
        (generateTown cfg R F ent1 iso1 townNameArg size st) =
      Except.map (fun p => (scrubTown p.1, p.2))
        (generateTown cfg R F ent2 iso2 townNameArg size st) := by
  unfold generateTown
  cases halk : alookup cfg.townSizes size with
  | none => rfl
  | some sc =>
    try dsimp only
    refine scrub_bind (generateStreets_scrub cfg R F ent1 ent2 _ _) (fun v1 v2 hm => ?_)
    simp only [Prod.mk.injEq] at hm
    obtain ⟨hm1, hm2⟩ := hm
    try dsimp only
    rw [← hm2]
    refine scrub_bind (generateBusinesses_scrub cfg R F ent1 ent2 v1.1 v2.1 hm1 _ _)
      (fun b1 b2 hb => ?_)
    simp only [Prod.mk.injEq] at hb
    obtain ⟨hb1, hb2⟩ := hb
    try dsimp only
    rw [← hb2]
    refine scrub_bind (generateLandmarks_scrub cfg R F ent1 ent2 v1.1 v2.1 hm1 _ _)
      (fun l1 l2 hl => ?_)
    simp only [Prod.mk.injEq] at hl
    obtain ⟨hl1, hl2⟩ := hl
    try dsimp only
    rw [← hl2]
    refine scrub_bind (generateParks_scrub cfg R F ent1 ent2 _ _) (fun p1 p2 hp => ?_)
    simp only [Prod.mk.injEq] at hp
    obtain ⟨hp1, hp2⟩ := hp
    try dsimp only
    rw [← hp2]
    refine scrub_bind (generateSchools_scrub cfg R F ent1 ent2 v1.1 v2.1 hm1 _ _)
      (fun c1 c2 hc => ?_)
    simp only [Prod.mk.injEq] at hc
    obtain ⟨hc1, hc2⟩ := hc
    try dsimp only
    rw [← hc2]
    refine scrub_bind (generateServices_scrub cfg R F ent1 ent2 _ v1.1 v2.1 hm1 _ _)
      (fun sv1 sv2 hsv => ?_)
    simp only [Prod.mk.injEq] at hsv
    obtain ⟨hsv1, hsv2⟩ := hsv
    try dsimp only
    rw [← hsv2]
    try dsimp only [useUuid]
    refine scrub_bind_same (fun cl => ?_)
    try dsimp only
    simp only [Except.map, Except.ok.injEq, Prod.mk.injEq, scrubTown, Town.mk.injEq,
      true_and, and_true]
    exact ⟨hm1, hb1, hl1, hp1, hc1, hsv1⟩

/-- C1 (amended): with the same seeded random source, Faker stream, config,
arguments and initial state, two runs of `generate_town` and of
`generate_dataset` agree byte-for-byte after erasing the uuid4-derived id
fields and the wall-clock `generated_at` timestamp. Those two inputs come from
`os.urandom` and `datetime.now()`, which `random.seed` does not control, so
the original claim's "including every record's id field and every timestamp
field" fails (see the counterexample), while everything drawn from the seeded
sources is deterministic and replayable. -/
theorem determinism_c1 (σ φ : Type) (cfgTown : TownConfig) (cfgPeople : PeopleConfig)
    (R : RandOps σ) (F : FakerOps φ) (ent1 ent2 : Nat → String) (iso1 iso2 : String)
    (townNameArg : Option String) (size : String) (year : Int) (num : PyNum)
    (st : GState σ φ) :
    Except.map (fun p => (scrubTown p.1, p.2))
        (generateTown cfgTown R F ent1 iso1 townNameArg size st) =
      Except.map (fun p => (scrubTown p.1, p.2))
        (generateTown cfgTown R F ent2 iso2 townNameArg size st) ∧
    Except.map (fun p => (p.1.map scrubPerson, p.2))
        (generateDataset cfgPeople R F ent1 year num st) =
      Except.map (fun p => (p.1.map scrubPerson, p.2))
        (generateDataset cfgPeople R F ent2 year num st) := by
  constructor
  · exact generateTown_scrub cfgTown R F ent1 ent2 iso1 iso2 townNameArg size st
  · cases num with
    | nonInt => rfl
    | int n =>
      unfold generateDataset
      try dsimp only
      by_cases hn : n ≤ 0
      · rw [if_pos hn, if_pos hn]
      · rw [if_neg hn, if_neg hn]
        exact generatePersonList_scrub cfgPeople R F ent1 ent2 year n.toNat st
